import Mathlib

/-!
# yubikey-agent: session and signing coordination

A shallow embedding of `src/main.go` (the `Agent` type, its device-session
methods and its `agent.ExtendedAgent` methods) together with the touch-prompt
task of `SignWithFlags`.

The program talks to three external collaborators: the PIV library
(`piv.Cards`, `piv.Open`, the methods of `*piv.YubiKey`), the SSH library
(`ssh.NewPublicKey`, `ssh.NewSignerFromKey`, `SignWithAlgorithm`) and the
operating system (the prompt dialogs, the temporary icon file, `runtime.GOOS`).
Their answers are not fixed by the repository, so they are the fields of an
environment `Env σ` acting on an arbitrary external state `σ`; the agent's code
is embedded as functions that thread the agent fields, the external state and a
log of the external calls made, in program order.

The mutex `Agent.mu` is not part of the sequential embedding.
-/

namespace YubikeyAgent

/-! ## Data model -/

/-- A live `*piv.YubiKey`, identified by a number. -/
abbrev Handle := Nat

/-- A smart card reader name, as returned by `piv.Cards`. -/
abbrev Card := String

/-- A byte string (`[]byte`). -/
abbrev Bytes := List Nat

/-- A `piv.Slot`, by its key reference. -/
abbrev Slot := Nat

/-- The slot `piv.SlotAuthentication` (9a). -/
def SlotAuthentication : Slot := 0x9a

/-- The dynamic type of a certificate's `PublicKey`, as far as the type switch
of `getPublicKey` distinguishes it; `other` carries the printed type name. -/
inductive KeyKind where
  | ecdsa
  | ed25519
  | rsa
  | other (typeName : String)
deriving DecidableEq, Repr

/-- A `crypto.PublicKey`: its dynamic type and an identifier of its value. -/
structure CryptoKey where
  kind : KeyKind
  id : Nat
deriving DecidableEq, Repr

/-- An `ssh.PublicKey`, through the three methods the agent uses: `Type()`,
`Marshal()` and `CryptoPublicKey()`. -/
structure PublicKey where
  type : String
  marshal : Bytes
  cryptoPublicKey : CryptoKey
deriving DecidableEq, Repr

/-- A `crypto.PrivateKey` handle returned by `yk.PrivateKey`. -/
abbrev Priv := Nat

/-- An `ssh.Signer`: its `PublicKey()` and the device key it signs with. -/
structure Signer where
  pub : PublicKey
  priv : Priv
deriving DecidableEq, Repr

/-- An `ssh.Signature`. -/
structure Signature where
  format : String
  blob : Bytes
deriving DecidableEq, Repr

/-- An `agent.Key`, one listed identity. -/
structure Key where
  format : String
  blob : Bytes
  comment : String
deriving DecidableEq, Repr

/-- A Go `(T, error)` result. -/
inductive Res (α : Type) where
  | ok (v : α)
  | error (msg : String)
deriving DecidableEq, Repr

/-- The fields `yk` and `serial` of `type Agent struct`; `yk = none` is the
nil pointer. -/
structure Agent where
  yk : Option Handle
  serial : Nat
deriving DecidableEq, Repr

/-- One external call, in the order the program issues it. -/
inductive Event where
  /-- The call `piv.Cards()`; `ok` tells whether it returned a nil error. -/
  | cards (ok : Bool)
  /-- The call `piv.Open(card)`. -/
  | openCard (card : Card) (ok : Bool)
  /-- The call `yk.AttestationCertificate()`, the health check. -/
  | attest (yk : Handle) (ok : Bool)
  /-- The call `yk.Close()`. -/
  | close (yk : Handle) (ok : Bool)
  /-- The call `yk.Serial()` with the value it returned. -/
  | serial (yk : Handle) (value : Nat)
  /-- The call `yk.Certificate(slot)`. -/
  | certificate (yk : Handle) (slot : Slot) (ok : Bool)
  /-- The call `yk.PrivateKey(slot, public, auth)`. -/
  | privateKey (yk : Handle) (slot : Slot) (ok : Bool)
  /-- The call `yk.Retries()`. -/
  | retries (yk : Handle)
  /-- The call `getEmbeddedIconPath()`. -/
  | iconPath
  /-- The PIN dialog `getPIN(serial, retries, imagePath)`. -/
  | getPIN (serial retries : Nat) (imagePath : String)
  /-- The statement `go func() { ... promptTouch ... }()`. -/
  | goTouch (serial : Nat) (imagePath : String)
  /-- The call `time.Sleep(100 * time.Millisecond)`. -/
  | sleep (ms : Nat)
  /-- The call `s.SignWithAlgorithm(rand.Reader, data, alg)`. -/
  | signWithAlgorithm (priv : Priv) (data : Bytes) (alg : String)
  /-- The touch dialog `promptTouch(serial, imagePath)`, inside the task. -/
  | promptTouch (serial : Nat) (imagePath : String)
  /-- The fallback `showNotification(message)`, inside the task. -/
  | showNotification (message : String)
deriving DecidableEq, Repr

/-- The course of one `SignWithAlgorithm` call as seen from the agent: the
library either finishes with a result, or invokes the `PINPrompt` callback and
continues from the callback's answer. -/
inductive SignRun (σ : Type) where
  | done (r : Res Signature) (w : σ)
  | askPIN (w : σ) (k : Res String → σ → SignRun σ)

/-- The external collaborators. -/
structure Env (σ : Type) where
  /-- The constant `runtime.GOOS`. -/
  goos : String
  /-- The function `piv.Cards()`. -/
  cards : σ → Res (List Card) × σ
  /-- The function `piv.Open(card)`. -/
  openCard : Card → σ → Res Handle × σ
  /-- Whether `yk.AttestationCertificate()` returns a nil error. -/
  attestationCertificate : Handle → σ → Bool × σ
  /-- The error of `yk.Close()`, `none` for nil. -/
  close : Handle → σ → Option String × σ
  /-- The value of `yk.Serial()` (a `uint32`); its error is discarded. -/
  serial : Handle → σ → Nat × σ
  /-- The field `yk.Version().Major`. -/
  versionMajor : Handle → Nat
  /-- The `PublicKey` of `yk.Certificate(slot)`. -/
  certificate : Handle → Slot → σ → Res CryptoKey × σ
  /-- The method `yk.PrivateKey(slot, public, auth)`; the callback in `auth`
  is kept by the library and invoked only while signing. -/
  privateKey : Handle → Slot → CryptoKey → σ → Res Priv × σ
  /-- The value of `yk.Retries()`; its error is discarded. -/
  retries : Handle → σ → Nat × σ
  /-- The method `SignWithAlgorithm(rand.Reader, data, alg)` of a signer. -/
  signWithAlgorithm : Priv → Bytes → String → σ → SignRun σ
  /-- The function `ssh.NewPublicKey`. -/
  newPublicKey : CryptoKey → Res PublicKey
  /-- The function `ssh.NewSignerFromKey`. -/
  newSignerFromKey : Priv → Res Signer
  /-- The path returned by `getEmbeddedIconPath()`. -/
  getEmbeddedIconPath : σ → String × σ
  /-- The PIN dialog `getPIN(serial, retries, imagePath)`. -/
  getPIN : Nat → Nat → String → σ → Res String × σ
  /-- The error of the touch dialog `promptTouch(serial, imagePath)`. -/
  promptTouch : Nat → String → Option String

/-- The outcome of a function that does not touch the agent's fields. -/
structure Ret (σ α : Type) where
  val : α
  world : σ
  log : List Event

/-- The outcome of a method of `*Agent`. -/
structure Out (σ α : Type) where
  val : α
  agent : Agent
  world : σ
  log : List Event

/-- The outcome of `SignWithFlags`: as `Out`, with the calls made by the
detached touch-prompt task in `task`. -/
structure SignOut (σ : Type) where
  val : Res Signature
  agent : Agent
  world : σ
  log : List Event
  task : List Event

/-- The panic message of a nil pointer dereference. -/
def nilDeref : String := "runtime error: invalid memory address or nil pointer dereference"

variable {σ : Type}

/-! ## Device session (`main.go`, lines 217-294) -/

/-- The function `healthy`. -/
def healthy (env : Env σ) (yk : Handle) (w : σ) : Ret σ Bool :=
  let r := env.attestationCertificate yk w
  ⟨r.1, r.2, [Event.attest yk r.1]⟩

/-- The loop of `openYK` over the cards, with the named results `(yk, err)`
as they stand when the iteration starts. -/
def openLoop (env : Env σ) :
    List Card → Option Handle × Option String → σ → Ret σ (Option Handle × Option String)
  | [], cur, w => ⟨cur, w, []⟩
  | card :: rest, _, w =>
    match env.openCard card w with
    | (Res.ok yk, w1) => ⟨(some yk, none), w1, [Event.openCard card true]⟩
    | (Res.error e, w1) =>
      let r := openLoop env rest (none, some e) w1
      ⟨r.val, r.world, Event.openCard card false :: r.log⟩

/-- The function `openYK`, returning its named results `(yk, err)`. -/
def openYK (env : Env σ) (w : σ) : Ret σ (Option Handle × Option String) :=
  match env.cards w with
  | (Res.error e, w1) => ⟨(none, some e), w1, [Event.cards false]⟩
  | (Res.ok [], w1) => ⟨(none, some "no YubiKey detected"), w1, [Event.cards true]⟩
  | (Res.ok (c :: cs), w1) =>
    let r := openLoop env (c :: cs) (none, none) w1
    ⟨r.val, r.world, Event.cards true :: r.log⟩

/-- The method `connectToYK`. -/
def connectToYK (env : Env σ) (a : Agent) (w : σ) : Out σ (Option Handle × Option String) :=
  let r := openYK env w
  match r.val with
  | (_, some err) => ⟨(none, some err), a, r.world, r.log⟩
  | (some yk, none) =>
    let s := env.serial yk r.world
    ⟨(some yk, none), { a with serial := s.1 }, s.2, r.log ++ [Event.serial yk s.1]⟩
  | (none, none) =>
    -- `yk.Serial()` on a nil pointer; `openYK` never returns `(nil, nil)`
    ⟨(none, some nilDeref), a, r.world, r.log⟩

/-- The tail of `ensureYK` once the stale handle is dealt with: connect and
store the new handle. -/
def reconnect (env : Env σ) (a : Agent) (w : σ) (pre : List Event) : Out σ (Option String) :=
  let c := connectToYK env a w
  match c.val with
  | (_, some err) => ⟨some err, c.agent, c.world, pre ++ c.log⟩
  | (yk, none) => ⟨none, { c.agent with yk := yk }, c.world, pre ++ c.log⟩

/-- The method `ensureYK`; the value is the returned error, `none` for nil. -/
def ensureYK (env : Env σ) (a : Agent) (w : σ) : Out σ (Option String) :=
  match a.yk with
  | none => reconnect env a w []
  | some yk =>
    let h := healthy env yk w
    if h.val then ⟨none, a, h.world, h.log⟩
    else
      let c := env.close yk h.world
      reconnect env a c.2 (h.log ++ [Event.close yk c.1.isNone])

/-- The method `maybeReleaseYK`. -/
def maybeReleaseYK (env : Env σ) (a : Agent) (w : σ) : Out σ Unit :=
  if env.goos ≠ "darwin" then ⟨(), a, w, []⟩
  else
    match a.yk with
    | none =>
      -- `a.yk.Version()` on a nil pointer; every caller runs `ensureYK` first
      ⟨(), a, w, []⟩
    | some yk =>
      if env.versionMajor yk < 5 then ⟨(), a, w, []⟩
      else
        let c := env.close yk w
        ⟨(), { a with yk := none }, c.2, [Event.close yk c.1.isNone]⟩

/-- The method `Close`; the value is the returned error, `none` for nil. -/
def Close (env : Env σ) (a : Agent) (w : σ) : Out σ (Option String) :=
  match a.yk with
  | some yk =>
    let c := env.close yk w
    ⟨c.1, { a with yk := none }, c.2, [Event.close yk c.1.isNone]⟩
  | none => ⟨none, a, w, []⟩

/-! ## Listing and signing (`main.go`, lines 335-468) -/

/-- The function `getPublicKey`. -/
def getPublicKey (env : Env σ) (yk : Handle) (slot : Slot) (w : σ) : Ret σ (Res PublicKey) :=
  match env.certificate yk slot w with
  | (Res.error e, w1) =>
    ⟨Res.error ("could not get public key: " ++ e), w1, [Event.certificate yk slot false]⟩
  | (Res.ok cert, w1) =>
    match cert.kind with
    | KeyKind.other t =>
      ⟨Res.error ("unexpected public key type: " ++ t), w1, [Event.certificate yk slot true]⟩
    | _ =>
      match env.newPublicKey cert with
      | Res.error e =>
        ⟨Res.error ("failed to process public key: " ++ e), w1, [Event.certificate yk slot true]⟩
      | Res.ok pk => ⟨Res.ok pk, w1, [Event.certificate yk slot true]⟩

/-- The text of `fmt.Sprintf("YubiKey #%d PIV Slot 9a", serial)`. -/
def comment (serial : Nat) : String :=
  "YubiKey #" ++ toString serial ++ " PIV Slot 9a"

/-- The method `List` of `*Agent`. -/
def Agent.List (env : Env σ) (a : Agent) (w : σ) : Out σ (Res (List Key)) :=
  let e := ensureYK env a w
  match e.val with
  | some err => ⟨Res.error ("could not reach YubiKey: " ++ err), e.agent, e.world, e.log⟩
  | none =>
    match e.agent.yk with
    | none =>
      -- `yk.Certificate` on a nil pointer; `ensureYK` returned nil, so `a.yk` is set
      ⟨Res.error nilDeref, e.agent, e.world, e.log⟩
    | some yk =>
      let p := getPublicKey env yk SlotAuthentication e.world
      -- the deferred `a.maybeReleaseYK()`
      let m := maybeReleaseYK env e.agent p.world
      match p.val with
      | Res.error err => ⟨Res.error err, m.agent, m.world, e.log ++ p.log ++ m.log⟩
      | Res.ok pk =>
        ⟨Res.ok [⟨pk.type, pk.marshal, comment e.agent.serial⟩], m.agent, m.world,
          e.log ++ p.log ++ m.log⟩

/-- The method `getPIN` of `*Agent`, the `PINPrompt` callback. -/
def Agent.getPIN (env : Env σ) (a : Agent) (w : σ) : Ret σ (Res String) :=
  match a.yk with
  | none =>
    -- `a.yk.Retries()` on a nil pointer; the callback runs while a handle is held
    ⟨Res.error nilDeref, w, []⟩
  | some yk =>
    let r := env.retries yk w
    let i := env.getEmbeddedIconPath r.2
    let p := env.getPIN a.serial r.1 i.1 i.2
    ⟨p.1, p.2, [Event.retries yk, Event.iconPath, Event.getPIN a.serial r.1 i.1]⟩

/-- The method `signers`. -/
def signers (env : Env σ) (a : Agent) (w : σ) : Ret σ (Res (List Signer)) :=
  match a.yk with
  | none =>
    -- `yk.Certificate` on a nil pointer; every caller runs `ensureYK` first
    ⟨Res.error nilDeref, w, []⟩
  | some yk =>
    let p := getPublicKey env yk SlotAuthentication w
    match p.val with
    | Res.error err => ⟨Res.error err, p.world, p.log⟩
    | Res.ok pk =>
      match env.privateKey yk SlotAuthentication pk.cryptoPublicKey p.world with
      | (Res.error err, w1) =>
        ⟨Res.error ("failed to prepare private key: " ++ err), w1,
          p.log ++ [Event.privateKey yk SlotAuthentication false]⟩
      | (Res.ok priv, w1) =>
        match env.newSignerFromKey priv with
        | Res.error err =>
          ⟨Res.error ("failed to prepare signer: " ++ err), w1,
            p.log ++ [Event.privateKey yk SlotAuthentication true]⟩
        | Res.ok s => ⟨Res.ok [s], w1, p.log ++ [Event.privateKey yk SlotAuthentication true]⟩

/-- The method `Signers`. -/
def Signers (env : Env σ) (a : Agent) (w : σ) : Out σ (Res (List Signer)) :=
  let e := ensureYK env a w
  match e.val with
  | some err => ⟨Res.error ("could not reach YubiKey: " ++ err), e.agent, e.world, e.log⟩
  | none =>
    let s := signers env e.agent e.world
    let m := maybeReleaseYK env e.agent s.world
    ⟨s.val, m.agent, m.world, e.log ++ s.log ++ m.log⟩

/-- The constant `agent.SignatureFlagRsaSha256`. -/
def SignatureFlagRsaSha256 : Nat := 2

/-- The constant `agent.SignatureFlagRsaSha512`. -/
def SignatureFlagRsaSha512 : Nat := 4

/-- The constant `ssh.KeyAlgoRSA`. -/
def KeyAlgoRSA : String := "ssh-rsa"

/-- The constant `ssh.SigAlgoRSASHA2256`. -/
def SigAlgoRSASHA2256 : String := "rsa-sha2-256"

/-- The constant `ssh.SigAlgoRSASHA2512`. -/
def SigAlgoRSASHA2512 : String := "rsa-sha2-512"

/-- The `alg` computed by the `switch` of `SignWithFlags` (lines 457-463)
from `key.Type()` and `flags`. -/
def sigAlg (keyType : String) (flags : Nat) : String :=
  if keyType = KeyAlgoRSA ∧ flags &&& SignatureFlagRsaSha256 ≠ 0 then SigAlgoRSASHA2256
  else if keyType = KeyAlgoRSA ∧ flags &&& SignatureFlagRsaSha512 ≠ 0 then SigAlgoRSASHA2512
  else keyType

/-- The body of the goroutine started by `SignWithFlags`: the touch dialog,
and the notification when the dialog fails. -/
def touchTask (env : Env σ) (serial : Nat) (imagePath : String) : List Event :=
  match env.promptTouch serial imagePath with
  | some _ => [Event.promptTouch serial imagePath, Event.showNotification "Waiting for Key touch..."]
  | none => [Event.promptTouch serial imagePath]

/-- Runs a `SignWithAlgorithm` call to its end, answering every `PINPrompt`
invocation with the agent's `getPIN` method. -/
def runSign (env : Env σ) (a : Agent) : SignRun σ → Ret σ (Res Signature)
  | SignRun.done r w => ⟨r, w, []⟩
  | SignRun.askPIN w k =>
    let p := Agent.getPIN env a w
    let r := runSign env a (k p.val p.world)
    ⟨r.val, r.world, p.log ++ r.log⟩

/-- The loop of `SignWithFlags` over the signers (lines 429-467). -/
def signLoop (env : Env σ) (a : Agent) (key : PublicKey) (data : Bytes) (flags : Nat) :
    List Signer → σ → SignOut σ
  | [], w => ⟨Res.error "no private keys match the requested public key", a, w, [], []⟩
  | s :: rest, w =>
    if s.pub.marshal ≠ key.marshal then signLoop env a key data flags rest w
    else
      let i := env.getEmbeddedIconPath w
      let alg := sigAlg key.type flags
      let r := runSign env a (env.signWithAlgorithm s.priv data alg i.2)
      ⟨r.val, a, r.world,
        [Event.iconPath, Event.goTouch a.serial i.1, Event.sleep 100,
          Event.signWithAlgorithm s.priv data alg] ++ r.log,
        touchTask env a.serial i.1⟩

/-- The method `SignWithFlags`. -/
def SignWithFlags (env : Env σ) (a : Agent) (w : σ) (key : PublicKey) (data : Bytes)
    (flags : Nat) : SignOut σ :=
  let e := ensureYK env a w
  match e.val with
  | some err => ⟨Res.error ("could not reach YubiKey: " ++ err), e.agent, e.world, e.log, []⟩
  | none =>
    let s := signers env e.agent e.world
    let b : SignOut σ :=
      match s.val with
      | Res.error err => ⟨Res.error err, e.agent, s.world, [], []⟩
      | Res.ok ss => signLoop env e.agent key data flags ss s.world
    -- the deferred `a.maybeReleaseYK()`
    let m := maybeReleaseYK env b.agent b.world
    ⟨b.val, m.agent, m.world, e.log ++ s.log ++ b.log ++ m.log, b.task⟩

/-- The method `Sign`. -/
def Sign (env : Env σ) (a : Agent) (w : σ) (key : PublicKey) (data : Bytes) : SignOut σ :=
  SignWithFlags env a w key data 0

/-! ## Management requests (`main.go`, lines 482-502) -/

/-- The variable `agent.ErrExtensionUnsupported`. -/
def ErrExtensionUnsupported : String := "agent: extension unsupported"

/-- The variable `ErrOperationUnsupported`. -/
def ErrOperationUnsupported : String := "operation unsupported"

/-- The method `Extension`. -/
def Extension (_env : Env σ) (a : Agent) (w : σ) (_extensionType : String)
    (_contents : Bytes) : Out σ (Res Bytes) :=
  ⟨Res.error ErrExtensionUnsupported, a, w, []⟩

/-- The method `Add`; the added key is represented by its bytes. -/
def Add (_env : Env σ) (a : Agent) (w : σ) (_key : Bytes) : Out σ (Option String) :=
  ⟨some ErrOperationUnsupported, a, w, []⟩

/-- The method `Remove`. -/
def Remove (_env : Env σ) (a : Agent) (w : σ) (_key : PublicKey) : Out σ (Option String) :=
  ⟨some ErrOperationUnsupported, a, w, []⟩

/-- The method `RemoveAll`. -/
def RemoveAll (env : Env σ) (a : Agent) (w : σ) : Out σ (Option String) :=
  Close env a w

/-- The method `Lock`. -/
def Lock (_env : Env σ) (a : Agent) (w : σ) (_passphrase : Bytes) : Out σ (Option String) :=
  ⟨some ErrOperationUnsupported, a, w, []⟩

/-- The method `Unlock`. -/
def Unlock (_env : Env σ) (a : Agent) (w : σ) (_passphrase : Bytes) : Out σ (Option String) :=
  ⟨some ErrOperationUnsupported, a, w, []⟩

/-! ## Counting calls in a log -/

/-- Whether an event is a `yk.Close()` call. -/
def Event.isClose : Event → Bool
  | Event.close _ _ => true
  | _ => false

/-- Whether an event is a `piv.Cards()` call, the first step of every run of
`openYK`. -/
def Event.isCards : Event → Bool
  | Event.cards _ => true
  | _ => false

/-- Whether an event is a `piv.Open` call. -/
def Event.isOpen : Event → Bool
  | Event.openCard _ _ => true
  | _ => false

/-- Whether an event is a `piv.Open` call that returned a handle. -/
def Event.isOpened : Event → Bool
  | Event.openCard _ ok => ok
  | _ => false

/-- Whether an event is a `yk.Serial()` call. -/
def Event.isSerial : Event → Bool
  | Event.serial _ _ => true
  | _ => false

/-- Whether an event is a PIN dialog. -/
def Event.isGetPIN : Event → Bool
  | Event.getPIN _ _ _ => true
  | _ => false

/-- Whether an event is the start of the touch-prompt task. -/
def Event.isGoTouch : Event → Bool
  | Event.goTouch _ _ => true
  | _ => false

/-- Whether an event is a `SignWithAlgorithm` call. -/
def Event.isSign : Event → Bool
  | Event.signWithAlgorithm _ _ _ => true
  | _ => false

/-- Whether an event is a call into the PIV library (the device). -/
def Event.isDevice : Event → Bool
  | Event.cards _ => true
  | Event.openCard _ _ => true
  | Event.attest _ _ => true
  | Event.close _ _ => true
  | Event.serial _ _ => true
  | Event.certificate _ _ _ => true
  | Event.privateKey _ _ _ => true
  | Event.retries _ => true
  | Event.signWithAlgorithm _ _ _ => true
  | _ => false

/-- Whether an event is one of the calls made while connecting to the device
and resolving its key: the calls of `ensureYK`, `signers` and `maybeReleaseYK`. -/
def Event.isSession : Event → Bool
  | Event.cards _ => true
  | Event.openCard _ _ => true
  | Event.attest _ _ => true
  | Event.close _ _ => true
  | Event.serial _ _ => true
  | Event.certificate _ _ _ => true
  | Event.privateKey _ _ _ => true
  | _ => false

/-- Whether an event is one of the calls of the `PINPrompt` callback, the
method `getPIN` of `*Agent`. -/
def Event.isCallback : Event → Bool
  | Event.retries _ => true
  | Event.iconPath => true
  | Event.getPIN _ _ _ => true
  | _ => false

/-- The failed `piv.Open` calls on the given cards, in order. -/
def failedOpens (cards : List Card) : List Event :=
  cards.map fun c => Event.openCard c false

/-- The environment `env` with another touch dialog: the same device, libraries
and operating system, differing only in what `promptTouch` returns. -/
def withPromptTouch (env : Env σ) (pt : Nat → String → Option String) : Env σ :=
  { env with promptTouch := pt }

/-! ## A concrete environment

One host with an internal reader that cannot be opened and one YubiKey. The
external state counts the calls made into the PIV library. -/

/-- The public key stored in slot 9a of the example device. -/
def demoKey : PublicKey := ⟨"ssh-rsa", [0, 0, 0, 7, 115, 115, 104], ⟨KeyKind.rsa, 1⟩⟩

/-- A second key, not on the example device. -/
def otherKey : PublicKey := ⟨"ssh-ed25519", [0, 0, 0, 11, 115, 115, 104], ⟨KeyKind.ed25519, 2⟩⟩

/-- The example environment: handle `7` is healthy, every other handle is
stale; signing asks for the PIN once and succeeds on `123456`. -/
def demoEnv : Env Nat where
  goos := "linux"
  cards w := (Res.ok ["Internal Reader", "Yubico YubiKey"], w + 1)
  openCard c w :=
    if c = "Yubico YubiKey" then (Res.ok 7, w + 1) else (Res.error "connecting to smart card", w + 1)
  attestationCertificate yk w := (decide (yk = 7), w + 1)
  close _ w := (none, w + 1)
  serial _ w := (1234567, w + 1)
  versionMajor _ := 5
  certificate _ _ w := (Res.ok ⟨KeyKind.rsa, 1⟩, w + 1)
  privateKey _ _ _ w := (Res.ok 1, w + 1)
  retries _ w := (3, w + 1)
  signWithAlgorithm _ data alg w :=
    SignRun.askPIN (w + 1) fun pin w1 =>
      match pin with
      | Res.ok "123456" => SignRun.done (Res.ok ⟨alg, data⟩) w1
      | _ => SignRun.done (Res.error "verify pin: smart card error 63c2") w1
  newPublicKey _ := Res.ok demoKey
  newSignerFromKey priv := Res.ok ⟨demoKey, priv⟩
  getEmbeddedIconPath w := ("/tmp/skoob-icon-1.png", w)
  getPIN _ _ _ w := (Res.ok "123456", w)
  promptTouch _ _ := none

/-- The example environment with a device whose `Close` reports an error. -/
def closeFailsEnv : Env Nat :=
  { demoEnv with close := fun _ w => (some "transaction failed", w + 1) }

/-- The example environment with a touch dialog that fails. -/
def touchFailsEnv : Env Nat :=
  withPromptTouch demoEnv fun _ _ => some "exit status 1"

/-- The example environment with a key that needs no PIN: the device signer
answers at once, with a signature naming the algorithm it was given. -/
def noPinEnv : Env Nat :=
  { demoEnv with
    signWithAlgorithm := fun _ data alg w => SignRun.done (Res.ok ⟨alg, data⟩) (w + 1) }

/-- The example environment with no card attached. -/
def noCardEnv : Env Nat :=
  { demoEnv with cards := fun w => (Res.ok [], w + 1) }

/-- The example environment with an empty slot 9a. -/
def emptySlotEnv : Env Nat :=
  { demoEnv with certificate := fun _ _ w => (Res.error "command failed: smart card error 6a82", w + 1) }

/-! ## `openYK` -/

theorem openLoop_spec (env : Env σ) :
    ∀ (cards : List Card) (cur : Option Handle × Option String) (w : σ),
      (∃ pre c post yk w1, cards = pre ++ c :: post ∧
          (openLoop env cards cur w).val = (some yk, none) ∧
          (env.openCard c w1).1 = Res.ok yk ∧
          (openLoop env cards cur w).log = failedOpens pre ++ [Event.openCard c true]) ∨
      ((openLoop env cards cur w).log = failedOpens cards ∧
          (cards = [] → (openLoop env cards cur w).val = cur) ∧
          (cards ≠ [] → ∃ e, (openLoop env cards cur w).val = (none, some e))) := by
  intro cards
  induction cards with
  | nil =>
    intro cur w
    right
    simp [openLoop, failedOpens]
  | cons card rest ih =>
    intro cur w
    rcases h : env.openCard card w with ⟨r, w1⟩
    cases r with
    | ok yk =>
      left
      refine ⟨[], card, rest, yk, w, rfl, ?_, ?_, ?_⟩
      · simp [openLoop, h]
      · simp [h]
      · simp [openLoop, h, failedOpens]
    | error e =>
      rcases ih (none, some e) w1 with ⟨pre, c, post, yk, w2, hc, hv, ho, hl⟩ | ⟨hl, hn, hs⟩
      · left
        refine ⟨card :: pre, c, post, yk, w2, ?_, ?_, ho, ?_⟩
        · simp [hc]
        · simp [openLoop, h, hv]
        · simp [openLoop, h, hl, failedOpens]
      · right
        refine ⟨?_, ?_, ?_⟩
        · simp [openLoop, h, hl, failedOpens]
        · intro hcontra
          exact absurd hcontra (by simp)
        · intro _
          by_cases hr : rest = []
          · exact ⟨e, by simp [openLoop, h, hn hr]⟩
          · obtain ⟨e2, he2⟩ := hs hr
            exact ⟨e2, by simp [openLoop, h, he2]⟩

theorem failedOpens_counts (cs : List Card) :
    (failedOpens cs).countP Event.isCards = 0 ∧ (failedOpens cs).countP Event.isClose = 0 ∧
    (failedOpens cs).countP Event.isSerial = 0 ∧ (failedOpens cs).countP Event.isOpened = 0 := by
  induction cs with
  | nil => simp [failedOpens]
  | cons c cs ih =>
    simp only [failedOpens, List.map_cons] at ih ⊢
    simp [List.countP_cons, Event.isCards, Event.isClose, Event.isSerial, Event.isOpened, ih]

/-- The shape of a run of `openYK`: one enumeration, then either failed opens
followed by one successful open, or an error. -/
theorem openYK_spec (env : Env σ) (w : σ) :
    (∃ cs pre c post yk w1, (env.cards w).1 = Res.ok cs ∧ cs = pre ++ c :: post ∧
        (openYK env w).val = (some yk, none) ∧ (env.openCard c w1).1 = Res.ok yk ∧
        (openYK env w).log = Event.cards true :: (failedOpens pre ++ [Event.openCard c true])) ∨
    (∃ e, (openYK env w).val = (none, some e) ∧
      (((env.cards w).1 = Res.error e ∧ (openYK env w).log = [Event.cards false]) ∨
        ((env.cards w).1 = Res.ok [] ∧ e = "no YubiKey detected" ∧
          (openYK env w).log = [Event.cards true]) ∨
        (∃ cs, (env.cards w).1 = Res.ok cs ∧ cs ≠ [] ∧
          (openYK env w).log = Event.cards true :: failedOpens cs))) := by
  rcases h : env.cards w with ⟨r, w1⟩
  cases r with
  | error e => simp [openYK, h]
  | ok cs =>
    cases cs with
    | nil => simp [openYK, h]
    | cons c cs =>
      rcases openLoop_spec env (c :: cs) (none, none) w1 with
        ⟨pre, c2, post, yk, w2, hc, hv, ho, hl⟩ | ⟨hl, _, hs⟩
      · left
        exact ⟨c :: cs, pre, c2, post, yk, w2, rfl, hc, by simp [openYK, h, hv], ho,
          by simp [openYK, h, hl]⟩
      · obtain ⟨e, he⟩ := hs (by simp)
        right
        exact ⟨e, by simp [openYK, h, he], by simp [openYK, h, hl]⟩

/-- The calls of a run of `openYK`: exactly one enumeration, no close, no
serial read, and one successful open exactly when a handle is returned. -/
theorem openYK_counts (env : Env σ) (w : σ) :
    (openYK env w).log.countP Event.isCards = 1 ∧
    (openYK env w).log.countP Event.isClose = 0 ∧
    (openYK env w).log.countP Event.isSerial = 0 ∧
    (((∃ yk, (openYK env w).val = (some yk, none)) ∧
        (openYK env w).log.countP Event.isOpened = 1) ∨
      ((∃ e, (openYK env w).val = (none, some e)) ∧
        (openYK env w).log.countP Event.isOpened = 0)) := by
  have hf := failedOpens_counts
  rcases openYK_spec env w with ⟨cs, pre, c, post, yk, w1, _, _, hv, _, hl⟩ | ⟨e, hv, hl⟩
  · rw [hl, hv]
    simp [List.countP_cons, List.countP_append, Event.isCards, Event.isClose, Event.isSerial,
      Event.isOpened, hf pre]
  · rw [hv]
    rcases hl with ⟨_, hl⟩ | ⟨_, _, hl⟩ | ⟨cs, _, _, hl⟩ <;> rw [hl] <;>
      simp [List.countP_cons, Event.isCards, Event.isClose, Event.isSerial, Event.isOpened, hf]

/-- C3. `openYK` returns the handle of the first enumerated card whose
`piv.Open` succeeds: the cards before it were each tried once and failed, and
no card after it is opened. It returns an error and no handle exactly when the
enumeration fails, the enumeration is empty, or every card was tried and
failed to open. -/
theorem openYK_first_success (env : Env σ) (w : σ) :
    ((∃ cs pre c post yk w1, (env.cards w).1 = Res.ok cs ∧ cs = pre ++ c :: post ∧
        (openYK env w).val = (some yk, none) ∧ (env.openCard c w1).1 = Res.ok yk ∧
        (openYK env w).log = Event.cards true :: (failedOpens pre ++ [Event.openCard c true])) ∨
      (∃ e, (openYK env w).val = (none, some e))) ∧
    ((∃ e, (openYK env w).val = (none, some e)) ↔
      ((∃ e, (env.cards w).1 = Res.error e ∧ (openYK env w).log = [Event.cards false]) ∨
        ((env.cards w).1 = Res.ok [] ∧ (openYK env w).log = [Event.cards true]) ∨
        (∃ cs, (env.cards w).1 = Res.ok cs ∧ cs ≠ [] ∧
          (openYK env w).log = Event.cards true :: failedOpens cs))) := by
  have hf := failedOpens_counts
  rcases openYK_spec env w with ⟨cs, pre, c, post, yk, w1, hcs, hc, hv, ho, hl⟩ | ⟨e, hv, hl⟩
  · refine ⟨Or.inl ⟨cs, pre, c, post, yk, w1, hcs, hc, hv, ho, hl⟩, ?_⟩
    have hcount := (openYK_counts env w).2.2.2
    constructor
    · rintro ⟨e, he⟩
      rw [hv] at he
      simp at he
    · intro hr
      exfalso
      have h1 : (openYK env w).log.countP Event.isOpened = 1 := by
        rw [hl]
        simp [List.countP_cons, List.countP_append, Event.isOpened, hf pre]
      rcases hr with ⟨e, _, hl2⟩ | ⟨_, hl2⟩ | ⟨cs2, _, _, hl2⟩ <;> rw [hl2] at h1 <;>
        simp [List.countP_cons, Event.isOpened, hf] at h1
  · refine ⟨Or.inr ⟨e, hv⟩, ?_⟩
    constructor
    · intro _
      rcases hl with ⟨h1, h2⟩ | ⟨h1, _, h2⟩ | h3
      · exact Or.inl ⟨e, h1, h2⟩
      · exact Or.inr (Or.inl ⟨h1, h2⟩)
      · exact Or.inr (Or.inr h3)
    · intro _
      exact ⟨e, hv⟩

/-- C3 at the example host: the internal reader fails to open and is skipped,
the YubiKey after it is opened and its handle returned; with no card attached
an error and no handle are returned. -/
theorem openYK_first_success_witness :
    (openYK demoEnv 0).val = (some 7, none) ∧
    (openYK demoEnv 0).log =
      Event.cards true :: (failedOpens ["Internal Reader"] ++
        [Event.openCard "Yubico YubiKey" true]) ∧
    ((∃ e, (openYK noCardEnv 0).val = (none, some e)) ↔
      ((∃ e, (noCardEnv.cards 0).1 = Res.error e ∧
          (openYK noCardEnv 0).log = [Event.cards false]) ∨
        ((noCardEnv.cards 0).1 = Res.ok [] ∧ (openYK noCardEnv 0).log = [Event.cards true]) ∨
        (∃ cs, (noCardEnv.cards 0).1 = Res.ok cs ∧ cs ≠ [] ∧
          (openYK noCardEnv 0).log = Event.cards true :: failedOpens cs))) ∧
    (openYK noCardEnv 0).val = (none, some "no YubiKey detected") :=
  ⟨by decide, by decide, (openYK_first_success noCardEnv 0).2, by decide⟩

/-! ## `ensureYK` -/

/-- The two outcomes of `connectToYK`: a handle with the serial read from it
stored, or the error of `openYK` with the agent untouched. -/
theorem connectToYK_spec (env : Env σ) (a : Agent) (w : σ) :
    (∃ yk, (openYK env w).val = (some yk, none) ∧
        (connectToYK env a w).val = (some yk, none) ∧
        (connectToYK env a w).agent = ⟨a.yk, (env.serial yk (openYK env w).world).1⟩ ∧
        (connectToYK env a w).log =
          (openYK env w).log ++ [Event.serial yk (env.serial yk (openYK env w).world).1]) ∨
    (∃ e, (openYK env w).val = (none, some e) ∧
        (connectToYK env a w).val = (none, some e) ∧
        (connectToYK env a w).agent = a ∧
        (connectToYK env a w).log = (openYK env w).log) := by
  rcases (openYK_counts env w).2.2.2 with ⟨⟨yk, hv⟩, _⟩ | ⟨⟨e, hv⟩, _⟩
  · left
    exact ⟨yk, hv, by simp [connectToYK, hv], by simp [connectToYK, hv],
      by simp [connectToYK, hv]⟩
  · right
    exact ⟨e, hv, by simp [connectToYK, hv], by simp [connectToYK, hv],
      by simp [connectToYK, hv]⟩

/-- The calls of a run of `connectToYK`. -/
theorem connectToYK_counts (env : Env σ) (a : Agent) (w : σ) :
    (connectToYK env a w).log.countP Event.isCards = 1 ∧
    (connectToYK env a w).log.countP Event.isClose = 0 ∧
    (((∃ yk, (connectToYK env a w).val = (some yk, none)) ∧
        (connectToYK env a w).log.countP Event.isOpened = 1 ∧
        (connectToYK env a w).log.countP Event.isSerial = 1) ∨
      ((∃ e, (connectToYK env a w).val = (none, some e)) ∧
        (connectToYK env a w).agent = a ∧
        (connectToYK env a w).log.countP Event.isOpened = 0 ∧
        (connectToYK env a w).log.countP Event.isSerial = 0)) := by
  obtain ⟨h1, h2, h3, h4⟩ := openYK_counts env w
  rcases connectToYK_spec env a w with ⟨yk, hv, hc, _, hl⟩ | ⟨e, hv, hc, ha, hl⟩
  · rw [hl, hc]
    rw [hv] at h4
    simp [List.countP_append, List.countP_cons, Event.isCards, Event.isClose, Event.isOpened,
      Event.isSerial, h1, h2, h3]
    simpa using h4
  · rw [hl, hc, ha]
    rw [hv] at h4
    simp [h1, h2, h3]
    simpa using h4

/-- The tail of `ensureYK`: its log is the given prefix followed by one run of
`connectToYK`, and it stores the handle exactly when that run succeeds. -/
theorem reconnect_spec (env : Env σ) (a : Agent) (w : σ) (pre : List Event) :
    (reconnect env a w pre).log = pre ++ (connectToYK env a w).log ∧
    (reconnect env a w pre).world = (connectToYK env a w).world ∧
    ((∃ yk, (connectToYK env a w).val = (some yk, none) ∧
        (reconnect env a w pre).val = none ∧
        (reconnect env a w pre).agent = ⟨some yk, (connectToYK env a w).agent.serial⟩) ∨
      (∃ e, (connectToYK env a w).val = (none, some e) ∧
        (reconnect env a w pre).val = some e ∧
        (reconnect env a w pre).agent = a)) := by
  rcases connectToYK_spec env a w with ⟨yk, _, hc, _, _⟩ | ⟨e, _, hc, ha, _⟩
  · refine ⟨by simp [reconnect, hc], by simp [reconnect, hc], Or.inl ⟨yk, hc, ?_, ?_⟩⟩
    · simp [reconnect, hc]
    · simp [reconnect, hc]
  · refine ⟨by simp [reconnect, hc], by simp [reconnect, hc], Or.inr ⟨e, hc, ?_, ?_⟩⟩
    · simp [reconnect, hc]
    · simp [reconnect, hc, ha]

/-- What `ensureYK` does in each session state. -/
theorem ensureYK_cases (env : Env σ) (a : Agent) (w : σ) :
    (a.yk = none ∧ ensureYK env a w = reconnect env a w []) ∨
    (∃ yk, a.yk = some yk ∧ (env.attestationCertificate yk w).1 = true ∧
      ensureYK env a w = ⟨none, a, (env.attestationCertificate yk w).2, [Event.attest yk true]⟩) ∨
    (∃ yk, a.yk = some yk ∧ (env.attestationCertificate yk w).1 = false ∧
      ensureYK env a w =
        reconnect env a (env.close yk (env.attestationCertificate yk w).2).2
          [Event.attest yk false,
            Event.close yk (env.close yk (env.attestationCertificate yk w).2).1.isNone]) := by
  cases hy : a.yk with
  | none => simp [ensureYK, hy]
  | some yk =>
    right
    cases hh : (env.attestationCertificate yk w).1 with
    | true => simp [ensureYK, hy, healthy, hh]
    | false => simp [ensureYK, hy, healthy, hh]

/-- When `ensureYK` returns nil the agent holds a handle. -/
theorem ensureYK_ok_some (env : Env σ) (a : Agent) (w : σ)
    (h : (ensureYK env a w).val = none) : ∃ yk, (ensureYK env a w).agent.yk = some yk := by
  rcases ensureYK_cases env a w with ⟨_, he⟩ | ⟨yk, hy, _, he⟩ | ⟨yk, _, _, he⟩
  · rw [he] at h ⊢
    rcases (reconnect_spec env a w []).2.2 with ⟨yk, _, _, hag⟩ | ⟨e, _, hv, _⟩
    · exact ⟨yk, by rw [hag]⟩
    · rw [hv] at h
      simp at h
  · exact ⟨yk, by rw [he]; exact hy⟩
  · rw [he] at h ⊢
    rcases (reconnect_spec env a _ _).2.2 with ⟨yk, _, _, hag⟩ | ⟨e, _, hv, _⟩
    · exact ⟨yk, by rw [hag]⟩
    · rw [hv] at h
      simp at h

/-- With a handle that passes the health check `ensureYK` only runs the check. -/
theorem ensureYK_healthy (env : Env σ) (a : Agent) (w : σ) (yk : Handle)
    (hy : a.yk = some yk) (hh : (env.attestationCertificate yk w).1 = true) :
    ensureYK env a w =
      ⟨none, a, (env.attestationCertificate yk w).2, [Event.attest yk true]⟩ := by
  simp [ensureYK, hy, healthy, hh]

/-- With no handle, `ensureYK` stores the handle that `openYK` returns and the
serial read from it. -/
theorem ensureYK_fresh_ok (env : Env σ) (a : Agent) (w : σ) (yk : Handle)
    (hn : a.yk = none) (ho : (openYK env w).val = (some yk, none)) :
    ensureYK env a w =
      ⟨none, ⟨some yk, (env.serial yk (openYK env w).world).1⟩,
        (env.serial yk (openYK env w).world).2,
        (openYK env w).log ++ [Event.serial yk (env.serial yk (openYK env w).world).1]⟩ := by
  simp [ensureYK, hn, reconnect, connectToYK, ho]

/-- With no handle, `ensureYK` returns the error of `openYK` and changes nothing. -/
theorem ensureYK_fresh_error (env : Env σ) (a : Agent) (w : σ) (e : String)
    (hn : a.yk = none) (ho : (openYK env w).val = (none, some e)) :
    ensureYK env a w = ⟨some e, a, (openYK env w).world, (openYK env w).log⟩ := by
  simp [ensureYK, hn, reconnect, connectToYK, ho]

/-- With a handle that fails the health check, `ensureYK` closes it and stores
the handle that `openYK` then returns, with the serial read from it. -/
theorem ensureYK_stale_ok (env : Env σ) (a : Agent) (w : σ) (yk yk2 : Handle)
    (hy : a.yk = some yk) (hh : (env.attestationCertificate yk w).1 = false)
    (ho : (openYK env (env.close yk (env.attestationCertificate yk w).2).2).val =
      (some yk2, none)) :
    ensureYK env a w =
      ⟨none,
        ⟨some yk2, (env.serial yk2
          (openYK env (env.close yk (env.attestationCertificate yk w).2).2).world).1⟩,
        (env.serial yk2
          (openYK env (env.close yk (env.attestationCertificate yk w).2).2).world).2,
        [Event.attest yk false,
            Event.close yk (env.close yk (env.attestationCertificate yk w).2).1.isNone] ++
          (openYK env (env.close yk (env.attestationCertificate yk w).2).2).log ++
          [Event.serial yk2 (env.serial yk2
            (openYK env (env.close yk (env.attestationCertificate yk w).2).2).world).1]⟩ := by
  simp [ensureYK, hy, healthy, hh, reconnect, connectToYK, ho]

/-- With a handle that fails the health check, `ensureYK` closes it and, when
`openYK` then fails, returns that error; the stale handle and the serial stay. -/
theorem ensureYK_stale_error (env : Env σ) (a : Agent) (w : σ) (yk : Handle) (e : String)
    (hy : a.yk = some yk) (hh : (env.attestationCertificate yk w).1 = false)
    (ho : (openYK env (env.close yk (env.attestationCertificate yk w).2).2).val =
      (none, some e)) :
    ensureYK env a w =
      ⟨some e, a, (openYK env (env.close yk (env.attestationCertificate yk w).2).2).world,
        [Event.attest yk false,
            Event.close yk (env.close yk (env.attestationCertificate yk w).2).1.isNone] ++
          (openYK env (env.close yk (env.attestationCertificate yk w).2).2).log⟩ := by
  simp [ensureYK, hy, healthy, hh, reconnect, connectToYK, ho]

/-- When the first enumerated card opens, `openYK` returns its handle after
exactly one enumeration and one open. -/
theorem openYK_first_card (env : Env σ) (w w1 w2 : σ) (c : Card) (cs : List Card)
    (yk : Handle) (hc : env.cards w = (Res.ok (c :: cs), w1))
    (ho : env.openCard c w1 = (Res.ok yk, w2)) :
    openYK env w = ⟨(some yk, none), w2, [Event.cards true, Event.openCard c true]⟩ := by
  simp [openYK, hc, openLoop, ho]

/-- The calls of a run of `ensureYK`: either it opens nothing and leaves the
agent as it is, or it runs `connectToYK` once, after at most one close; the
serial is replaced, by the value just read, only when that run succeeds. -/
theorem ensureYK_summary (env : Env σ) (a : Agent) (w : σ) :
    ((ensureYK env a w).val = none ∧ (ensureYK env a w).agent = a ∧
      (ensureYK env a w).log.countP Event.isCards = 0 ∧
      (ensureYK env a w).log.countP Event.isOpened = 0 ∧
      (ensureYK env a w).log.countP Event.isClose = 0 ∧
      (ensureYK env a w).log.countP Event.isSerial = 0) ∨
    ((ensureYK env a w).log.countP Event.isCards = 1 ∧
      (ensureYK env a w).log.countP Event.isClose ≤ 1 ∧
      (((ensureYK env a w).val = none ∧
          (ensureYK env a w).log.countP Event.isOpened = 1 ∧
          (ensureYK env a w).log.countP Event.isSerial = 1 ∧
          ∃ yk v pre, (ensureYK env a w).agent = ⟨some yk, v⟩ ∧
            (ensureYK env a w).log = pre ++ [Event.serial yk v]) ∨
        ((∃ e, (ensureYK env a w).val = some e) ∧ (ensureYK env a w).agent = a ∧
          (ensureYK env a w).log.countP Event.isOpened = 0 ∧
          (ensureYK env a w).log.countP Event.isSerial = 0))) := by
  have key : ∀ (w1 : σ) (pre : List Event), pre.countP Event.isCards = 0 →
      pre.countP Event.isOpened = 0 → pre.countP Event.isSerial = 0 →
      pre.countP Event.isClose ≤ 1 →
      ((reconnect env a w1 pre).log.countP Event.isCards = 1 ∧
      (reconnect env a w1 pre).log.countP Event.isClose ≤ 1 ∧
      (((reconnect env a w1 pre).val = none ∧
          (reconnect env a w1 pre).log.countP Event.isOpened = 1 ∧
          (reconnect env a w1 pre).log.countP Event.isSerial = 1 ∧
          ∃ yk v pre2, (reconnect env a w1 pre).agent = ⟨some yk, v⟩ ∧
            (reconnect env a w1 pre).log = pre2 ++ [Event.serial yk v]) ∨
        ((∃ e, (reconnect env a w1 pre).val = some e) ∧ (reconnect env a w1 pre).agent = a ∧
          (reconnect env a w1 pre).log.countP Event.isOpened = 0 ∧
          (reconnect env a w1 pre).log.countP Event.isSerial = 0))) := by
    intro w1 pre p1 p2 p3 p4
    obtain ⟨hl, _, hr⟩ := reconnect_spec env a w1 pre
    obtain ⟨c1, c2, c3⟩ := connectToYK_counts env a w1
    rw [hl]
    simp only [List.countP_append, p1, p2, p3, c1, c2, Nat.zero_add, Nat.add_zero, true_and]
    refine ⟨p4, ?_⟩
    rcases hr with ⟨yk, hv, hrv, hag⟩ | ⟨e, hv, hrv, hag⟩
    · left
      rcases c3 with ⟨_, o1, o2⟩ | ⟨⟨e, he⟩, _⟩
      · refine ⟨hrv, o1, o2, ?_⟩
        rcases connectToYK_spec env a w1 with ⟨yk2, _, hc, hca, hcl⟩ | ⟨e, _, hc, _, _⟩
        · rw [hc] at hv
          simp at hv
          subst hv
          refine ⟨yk2, (env.serial yk2 (openYK env w1).world).1, pre ++ (openYK env w1).log,
            ?_, ?_⟩
          · rw [hag, hca]
          · rw [hcl]
            simp
        · rw [hc] at hv
          simp at hv
      · rw [he] at hv
        simp at hv
    · right
      rcases c3 with ⟨⟨yk, hy⟩, _⟩ | ⟨_, _, o1, o2⟩
      · rw [hy] at hv
        simp at hv
      · exact ⟨⟨e, hrv⟩, hag, o1, o2⟩
  rcases ensureYK_cases env a w with ⟨_, he⟩ | ⟨yk, hy, _, he⟩ | ⟨yk, _, _, he⟩
  · right
    rw [he]
    exact key w [] (by simp) (by simp) (by simp) (by simp)
  · left
    rw [he]
    simp [Event.isCards, Event.isOpened, Event.isClose, Event.isSerial]
  · right
    rw [he]
    exact key _ _ (by simp [Event.isCards]) (by simp [Event.isOpened])
      (by simp [Event.isSerial]) (by simp [Event.isClose])

/-- C4. The device traffic of `ensureYK` is fixed by the session state. With a
handle that passes the health check it closes nothing and opens nothing and
leaves the agent as it is; so from no handle, a successful call followed by a
call on the healthy new handle perform one run of `openYK` (one enumeration,
one successful `piv.Open`) in total. With a handle that fails the health check
the log is the health check, one `Close` of the stale handle, then one run of
`connectToYK` (one enumeration, no close, at most one successful `piv.Open`,
exactly one when `ensureYK` returns nil). The cached serial differs from its
old value only in a call where a reopen succeeds: it is unchanged when nothing
is opened and when `ensureYK` returns an error. The outcome is fixed by the
device: with no handle, when `openYK` opens a device (in particular when the
first enumerated card opens) `ensureYK` returns nil, stores that handle and the
serial read from it, after one enumeration, one successful open and no close,
and a second call on the healthy new handle only runs the health check; when
`openYK` fails, `ensureYK` returns its error and changes nothing. With a stale
handle the same holds after the close, the stale handle staying when the
reopen fails. -/
theorem ensureYK_device_traffic (env : Env σ) (a : Agent) (w : σ) :
    (∀ yk, a.yk = some yk → (env.attestationCertificate yk w).1 = true →
      (ensureYK env a w).val = none ∧ (ensureYK env a w).agent = a ∧
      (ensureYK env a w).log = [Event.attest yk true]) ∧
    (a.yk = none → (ensureYK env a w).val = none →
      (∀ yk, (ensureYK env a w).agent.yk = some yk →
        (env.attestationCertificate yk (ensureYK env a w).world).1 = true) →
      ((ensureYK env a w).log ++
          (ensureYK env (ensureYK env a w).agent (ensureYK env a w).world).log).countP
            Event.isCards = 1 ∧
      ((ensureYK env a w).log ++
          (ensureYK env (ensureYK env a w).agent (ensureYK env a w).world).log).countP
            Event.isOpened = 1 ∧
      ((ensureYK env a w).log ++
          (ensureYK env (ensureYK env a w).agent (ensureYK env a w).world).log).countP
            Event.isClose = 0) ∧
    (∀ yk, a.yk = some yk → (env.attestationCertificate yk w).1 = false →
      ∃ ok w1,
        (ensureYK env a w).log =
          Event.attest yk false :: Event.close yk ok :: (connectToYK env a w1).log ∧
        (connectToYK env a w1).log.countP Event.isClose = 0 ∧
        (connectToYK env a w1).log.countP Event.isCards = 1 ∧
        (connectToYK env a w1).log.countP Event.isOpened ≤ 1 ∧
        ((ensureYK env a w).val = none ↔
          (connectToYK env a w1).log.countP Event.isOpened = 1)) ∧
    ((ensureYK env a w).agent.serial ≠ a.serial →
      (ensureYK env a w).val = none ∧ (ensureYK env a w).log.countP Event.isOpened = 1) ∧
    ((ensureYK env a w).log.countP Event.isCards = 0 →
      (ensureYK env a w).agent.serial = a.serial) ∧
    ((ensureYK env a w).val ≠ none → (ensureYK env a w).agent.serial = a.serial) ∧
    (a.yk = none → ∀ yk, (openYK env w).val = (some yk, none) →
      (ensureYK env a w).val = none ∧
      (ensureYK env a w).agent = ⟨some yk, (env.serial yk (openYK env w).world).1⟩ ∧
      (ensureYK env a w).world = (env.serial yk (openYK env w).world).2 ∧
      (ensureYK env a w).log =
        (openYK env w).log ++ [Event.serial yk (env.serial yk (openYK env w).world).1] ∧
      (ensureYK env a w).log.countP Event.isCards = 1 ∧
      (ensureYK env a w).log.countP Event.isOpened = 1 ∧
      (ensureYK env a w).log.countP Event.isClose = 0) ∧
    (a.yk = none → ∀ e, (openYK env w).val = (none, some e) →
      (ensureYK env a w).val = some e ∧ (ensureYK env a w).agent = a ∧
      (ensureYK env a w).log = (openYK env w).log) ∧
    (a.yk = none → ∀ yk, (openYK env w).val = (some yk, none) →
      (env.attestationCertificate yk (env.serial yk (openYK env w).world).2).1 = true →
      (ensureYK env (ensureYK env a w).agent (ensureYK env a w).world).val = none ∧
      (ensureYK env (ensureYK env a w).agent (ensureYK env a w).world).agent =
        (ensureYK env a w).agent ∧
      (ensureYK env (ensureYK env a w).agent (ensureYK env a w).world).log =
        [Event.attest yk true] ∧
      ((ensureYK env a w).log ++
          (ensureYK env (ensureYK env a w).agent (ensureYK env a w).world).log).countP
            Event.isCards = 1 ∧
      ((ensureYK env a w).log ++
          (ensureYK env (ensureYK env a w).agent (ensureYK env a w).world).log).countP
            Event.isOpened = 1 ∧
      ((ensureYK env a w).log ++
          (ensureYK env (ensureYK env a w).agent (ensureYK env a w).world).log).countP
            Event.isClose = 0) ∧
    (a.yk = none → ∀ c cs w1 yk w2, env.cards w = (Res.ok (c :: cs), w1) →
      env.openCard c w1 = (Res.ok yk, w2) →
      (ensureYK env a w).val = none ∧
      (ensureYK env a w).agent = ⟨some yk, (env.serial yk w2).1⟩ ∧
      (ensureYK env a w).log =
        [Event.cards true, Event.openCard c true, Event.serial yk (env.serial yk w2).1]) ∧
    (∀ yk, a.yk = some yk → (env.attestationCertificate yk w).1 = false →
      (∀ yk2, (openYK env (env.close yk (env.attestationCertificate yk w).2).2).val =
          (some yk2, none) →
        (ensureYK env a w).val = none ∧
        (ensureYK env a w).agent =
          ⟨some yk2, (env.serial yk2
            (openYK env (env.close yk (env.attestationCertificate yk w).2).2).world).1⟩ ∧
        (ensureYK env a w).log =
          [Event.attest yk false,
              Event.close yk (env.close yk (env.attestationCertificate yk w).2).1.isNone] ++
            (openYK env (env.close yk (env.attestationCertificate yk w).2).2).log ++
            [Event.serial yk2 (env.serial yk2
              (openYK env (env.close yk (env.attestationCertificate yk w).2).2).world).1]) ∧
      (∀ e, (openYK env (env.close yk (env.attestationCertificate yk w).2).2).val =
          (none, some e) →
        (ensureYK env a w).val = some e ∧ (ensureYK env a w).agent = a ∧
        (ensureYK env a w).log =
          [Event.attest yk false,
              Event.close yk (env.close yk (env.attestationCertificate yk w).2).1.isNone] ++
            (openYK env (env.close yk (env.attestationCertificate yk w).2).2).log)) := by
  refine ⟨?_, ?_, ?_, ?_, ?_, ?_, ?_, ?_, ?_, ?_, ?_⟩
  · intro yk hy hh
    rcases ensureYK_cases env a w with ⟨hn, _⟩ | ⟨yk2, hy2, _, he⟩ | ⟨yk2, hy2, hh2, _⟩
    · rw [hn] at hy
      simp at hy
    · rw [hy] at hy2
      simp at hy2
      subst hy2
      rw [he]
      simp
    · rw [hy] at hy2
      simp at hy2
      subst hy2
      rw [hh] at hh2
      simp at hh2
  · intro hn hv hh
    obtain ⟨yk, hyk⟩ := ensureYK_ok_some env a w hv
    have h2 := hh yk hyk
    have hsecond : (ensureYK env (ensureYK env a w).agent (ensureYK env a w).world).log =
        [Event.attest yk true] := by
      rcases ensureYK_cases env (ensureYK env a w).agent (ensureYK env a w).world with
        ⟨hn2, _⟩ | ⟨yk2, hy2, _, he⟩ | ⟨yk2, hy2, hh2, _⟩
      · rw [hn2] at hyk
        simp at hyk
      · rw [hyk] at hy2
        simp at hy2
        subst hy2
        rw [he]
      · rw [hyk] at hy2
        simp at hy2
        subst hy2
        rw [h2] at hh2
        simp at hh2
    rw [hsecond]
    have hfirst : (ensureYK env a w).log.countP Event.isCards = 1 ∧
        (ensureYK env a w).log.countP Event.isOpened = 1 ∧
        (ensureYK env a w).log.countP Event.isClose = 0 := by
      rcases ensureYK_cases env a w with ⟨_, he⟩ | ⟨yk2, hy2, _, _⟩ | ⟨yk2, hy2, _, _⟩
      · rw [he] at hv ⊢
        obtain ⟨hl, _, hr⟩ := reconnect_spec env a w []
        obtain ⟨c1, c2, c3⟩ := connectToYK_counts env a w
        rw [hl]
        simp only [List.nil_append]
        refine ⟨c1, ?_, c2⟩
        rcases c3 with ⟨_, o1, _⟩ | ⟨⟨e, he2⟩, _⟩
        · exact o1
        · rcases hr with ⟨yk3, hc, _, _⟩ | ⟨e3, _, hrv, _⟩
          · rw [hc] at he2
            simp at he2
          · rw [hrv] at hv
            simp at hv
      · rw [hn] at hy2
        simp at hy2
      · rw [hn] at hy2
        simp at hy2
    obtain ⟨f1, f2, f3⟩ := hfirst
    simp [List.countP_append, f1, f2, f3, Event.isCards, Event.isOpened, Event.isClose]
  · intro yk hy hh
    rcases ensureYK_cases env a w with ⟨hn, _⟩ | ⟨yk2, hy2, hh2, _⟩ | ⟨yk2, hy2, _, he⟩
    · rw [hn] at hy
      simp at hy
    · rw [hy] at hy2
      simp at hy2
      subst hy2
      rw [hh] at hh2
      simp at hh2
    · rw [hy] at hy2
      simp at hy2
      subst hy2
      refine ⟨(env.close yk (env.attestationCertificate yk w).2).1.isNone,
        (env.close yk (env.attestationCertificate yk w).2).2, ?_⟩
      obtain ⟨hl, _, hr⟩ := reconnect_spec env a
        (env.close yk (env.attestationCertificate yk w).2).2
        [Event.attest yk false,
          Event.close yk (env.close yk (env.attestationCertificate yk w).2).1.isNone]
      obtain ⟨c1, c2, c3⟩ := connectToYK_counts env a
        (env.close yk (env.attestationCertificate yk w).2).2
      rw [he]
      refine ⟨by rw [hl]; simp, c2, c1, ?_, ?_⟩
      · rcases c3 with ⟨_, o1, _⟩ | ⟨_, _, o1, _⟩ <;> omega
      · rcases hr with ⟨yk3, hc, hrv, _⟩ | ⟨e3, hc, hrv, _⟩
        · rcases c3 with ⟨_, o1, _⟩ | ⟨⟨e, he2⟩, _⟩
          · simp [hrv, o1]
          · rw [hc] at he2
            simp at he2
        · rcases c3 with ⟨⟨yk4, hy4⟩, _⟩ | ⟨_, _, o1, _⟩
          · rw [hc] at hy4
            simp at hy4
          · simp [hrv, o1]
  · intro hs
    rcases ensureYK_summary env a w with ⟨_, ha, _⟩ | ⟨_, _, h⟩
    · rw [ha] at hs
      exact absurd rfl hs
    · rcases h with ⟨hv, ho, _⟩ | ⟨_, ha, _⟩
      · exact ⟨hv, ho⟩
      · rw [ha] at hs
        exact absurd rfl hs
  · intro hc
    rcases ensureYK_summary env a w with ⟨_, ha, _⟩ | ⟨h1, _⟩
    · rw [ha]
    · omega
  · intro hv
    rcases ensureYK_summary env a w with ⟨hv2, _⟩ | ⟨_, _, h⟩
    · exact absurd hv2 hv
    · rcases h with ⟨hv2, _⟩ | ⟨_, ha, _⟩
      · exact absurd hv2 hv
      · rw [ha]
  · intro hn yk ho
    obtain ⟨c1, c2, _, c4⟩ := openYK_counts env w
    have c5 : (openYK env w).log.countP Event.isOpened = 1 := by
      rcases c4 with ⟨_, h⟩ | ⟨⟨e, he⟩, _⟩
      · exact h
      · rw [ho] at he
        simp at he
    rw [ensureYK_fresh_ok env a w yk hn ho]
    simp [List.countP_append, c1, c2, c5, Event.isCards, Event.isOpened, Event.isClose]
  · intro hn e ho
    rw [ensureYK_fresh_error env a w e hn ho]
    simp
  · intro hn yk ho hh
    obtain ⟨c1, c2, _, c4⟩ := openYK_counts env w
    have c5 : (openYK env w).log.countP Event.isOpened = 1 := by
      rcases c4 with ⟨_, h⟩ | ⟨⟨e, he⟩, _⟩
      · exact h
      · rw [ho] at he
        simp at he
    rw [ensureYK_fresh_ok env a w yk hn ho]
    rw [ensureYK_healthy env ⟨some yk, (env.serial yk (openYK env w).world).1⟩
      (env.serial yk (openYK env w).world).2 yk rfl hh]
    simp [List.countP_append, c1, c2, c5, Event.isCards, Event.isOpened, Event.isClose]
  · intro hn c cs w1 yk w2 hc ho
    have hopen := openYK_first_card env w w1 w2 c cs yk hc ho
    have hval : (openYK env w).val = (some yk, none) := by rw [hopen]
    rw [ensureYK_fresh_ok env a w yk hn hval, hopen]
    simp
  · intro yk hy hh
    constructor
    · intro yk2 ho
      rw [ensureYK_stale_ok env a w yk yk2 hy hh ho]
      simp
    · intro e ho
      rw [ensureYK_stale_error env a w yk e hy hh ho]
      simp

/-- C4 at the example device. Holding the stale handle `3` and the serial `99`:
one close of handle `3`, then one reopen, which tries the internal reader,
opens the YubiKey as handle `7` and caches its serial. Holding no handle: one
open, and a second call on the healthy new handle only runs the health check,
so the two calls perform one open in total. -/
theorem ensureYK_device_traffic_witness :
    (∃ ok w1,
      (ensureYK demoEnv ⟨some 3, 99⟩ 0).log =
        Event.attest 3 false :: Event.close 3 ok :: (connectToYK demoEnv ⟨some 3, 99⟩ w1).log ∧
      (connectToYK demoEnv ⟨some 3, 99⟩ w1).log.countP Event.isClose = 0 ∧
      (connectToYK demoEnv ⟨some 3, 99⟩ w1).log.countP Event.isCards = 1 ∧
      (connectToYK demoEnv ⟨some 3, 99⟩ w1).log.countP Event.isOpened ≤ 1 ∧
      ((ensureYK demoEnv ⟨some 3, 99⟩ 0).val = none ↔
        (connectToYK demoEnv ⟨some 3, 99⟩ w1).log.countP Event.isOpened = 1)) ∧
    (ensureYK demoEnv ⟨some 3, 99⟩ 0).log =
      [Event.attest 3 false, Event.close 3 true, Event.cards true,
        Event.openCard "Internal Reader" false, Event.openCard "Yubico YubiKey" true,
        Event.serial 7 1234567] ∧
    (ensureYK demoEnv ⟨some 3, 99⟩ 0).log.countP Event.isOpen = 2 ∧
    (ensureYK demoEnv ⟨some 3, 99⟩ 0).agent = ⟨some 7, 1234567⟩ ∧
    ((ensureYK demoEnv ⟨none, 0⟩ 0).val = none ∧
      (ensureYK demoEnv ⟨none, 0⟩ 0).agent = ⟨some 7, 1234567⟩ ∧
      (ensureYK demoEnv ⟨none, 0⟩ 0).world = 4 ∧
      (ensureYK demoEnv ⟨none, 0⟩ 0).log =
        [Event.cards true, Event.openCard "Internal Reader" false,
          Event.openCard "Yubico YubiKey" true, Event.serial 7 1234567] ∧
      (ensureYK demoEnv ⟨none, 0⟩ 0).log.countP Event.isCards = 1 ∧
      (ensureYK demoEnv ⟨none, 0⟩ 0).log.countP Event.isOpened = 1 ∧
      (ensureYK demoEnv ⟨none, 0⟩ 0).log.countP Event.isClose = 0) ∧
    ((ensureYK demoEnv (ensureYK demoEnv ⟨none, 0⟩ 0).agent
        (ensureYK demoEnv ⟨none, 0⟩ 0).world).val = none ∧
      (ensureYK demoEnv (ensureYK demoEnv ⟨none, 0⟩ 0).agent
        (ensureYK demoEnv ⟨none, 0⟩ 0).world).agent = (ensureYK demoEnv ⟨none, 0⟩ 0).agent ∧
      (ensureYK demoEnv (ensureYK demoEnv ⟨none, 0⟩ 0).agent
        (ensureYK demoEnv ⟨none, 0⟩ 0).world).log = [Event.attest 7 true] ∧
      ((ensureYK demoEnv ⟨none, 0⟩ 0).log ++
          (ensureYK demoEnv (ensureYK demoEnv ⟨none, 0⟩ 0).agent
            (ensureYK demoEnv ⟨none, 0⟩ 0).world).log).countP Event.isCards = 1 ∧
      ((ensureYK demoEnv ⟨none, 0⟩ 0).log ++
          (ensureYK demoEnv (ensureYK demoEnv ⟨none, 0⟩ 0).agent
            (ensureYK demoEnv ⟨none, 0⟩ 0).world).log).countP Event.isOpened = 1 ∧
      ((ensureYK demoEnv ⟨none, 0⟩ 0).log ++
          (ensureYK demoEnv (ensureYK demoEnv ⟨none, 0⟩ 0).agent
            (ensureYK demoEnv ⟨none, 0⟩ 0).world).log).countP Event.isClose = 0) ∧
    ((ensureYK noCardEnv ⟨none, 0⟩ 0).val = some "no YubiKey detected" ∧
      (ensureYK noCardEnv ⟨none, 0⟩ 0).agent = ⟨none, 0⟩ ∧
      (ensureYK noCardEnv ⟨none, 0⟩ 0).log = [Event.cards true]) ∧
    ((ensureYK demoEnv ⟨none, 0⟩ 0).val, (ensureYK demoEnv ⟨none, 0⟩ 0).agent) =
      (none, ⟨some 7, 1234567⟩) ∧
    (ensureYK demoEnv ⟨none, 0⟩ 0).log ++
        (ensureYK demoEnv (ensureYK demoEnv ⟨none, 0⟩ 0).agent
          (ensureYK demoEnv ⟨none, 0⟩ 0).world).log =
      [Event.cards true, Event.openCard "Internal Reader" false,
        Event.openCard "Yubico YubiKey" true, Event.serial 7 1234567, Event.attest 7 true] ∧
    ((ensureYK noCardEnv ⟨none, 0⟩ 0).val, (ensureYK noCardEnv ⟨none, 0⟩ 0).log) =
      (some "no YubiKey detected", [Event.cards true]) :=
  ⟨(ensureYK_device_traffic demoEnv ⟨some 3, 99⟩ 0).2.2.1 3 rfl (by decide), by decide,
    by decide, by decide,
    (ensureYK_device_traffic demoEnv ⟨none, 0⟩ 0).2.2.2.2.2.2.1 rfl 7 (by decide),
    (ensureYK_device_traffic demoEnv ⟨none, 0⟩ 0).2.2.2.2.2.2.2.2.1 rfl 7 (by decide)
      (by decide),
    (ensureYK_device_traffic noCardEnv ⟨none, 0⟩ 0).2.2.2.2.2.2.2.1 rfl
      "no YubiKey detected" (by decide),
    by decide, by decide, by decide⟩

/-! ## `List` -/

/-- The function `getPublicKey` fails with "could not get public key" when the
certificate cannot be read. -/
theorem getPublicKey_no_cert (env : Env σ) (yk : Handle) (slot : Slot) (w : σ) (e : String)
    (h : (env.certificate yk slot w).1 = Res.error e) :
    (getPublicKey env yk slot w).val = Res.error ("could not get public key: " ++ e) := by
  rcases hc : env.certificate yk slot w with ⟨r, w1⟩
  rw [hc] at h
  simp at h
  subst h
  simp [getPublicKey, hc]

/-- A key returned by `getPublicKey` is `ssh.NewPublicKey` of the public key of
the slot's certificate, which is an ECDSA, Ed25519 or RSA key. -/
theorem getPublicKey_ok (env : Env σ) (yk : Handle) (slot : Slot) (w : σ) (pk : PublicKey)
    (h : (getPublicKey env yk slot w).val = Res.ok pk) :
    ∃ cert, (env.certificate yk slot w).1 = Res.ok cert ∧ env.newPublicKey cert = Res.ok pk ∧
      (cert.kind = KeyKind.ecdsa ∨ cert.kind = KeyKind.ed25519 ∨ cert.kind = KeyKind.rsa) := by
  rcases hc : env.certificate yk slot w with ⟨r, w1⟩
  cases r with
  | error e => simp [getPublicKey, hc] at h
  | ok cert =>
    refine ⟨cert, rfl, ?_⟩
    cases hk : cert.kind with
    | other t => simp [getPublicKey, hc, hk] at h
    | ecdsa =>
      cases hn : env.newPublicKey cert with
      | error e => simp [getPublicKey, hc, hk, hn] at h
      | ok pk2 =>
        simp [getPublicKey, hc, hk, hn] at h
        simp [h]
    | ed25519 =>
      cases hn : env.newPublicKey cert with
      | error e => simp [getPublicKey, hc, hk, hn] at h
      | ok pk2 =>
        simp [getPublicKey, hc, hk, hn] at h
        simp [h]
    | rsa =>
      cases hn : env.newPublicKey cert with
      | error e => simp [getPublicKey, hc, hk, hn] at h
      | ok pk2 =>
        simp [getPublicKey, hc, hk, hn] at h
        simp [h]

/-- The function `getPublicKey` returns `ssh.NewPublicKey` of the certificate's
key when the certificate is read and holds an ECDSA, Ed25519 or RSA key. -/
theorem getPublicKey_usable (env : Env σ) (yk : Handle) (slot : Slot) (w : σ)
    (cert : CryptoKey) (pk : PublicKey)
    (hc : (env.certificate yk slot w).1 = Res.ok cert)
    (hk : cert.kind = KeyKind.ecdsa ∨ cert.kind = KeyKind.ed25519 ∨ cert.kind = KeyKind.rsa)
    (hn : env.newPublicKey cert = Res.ok pk) :
    (getPublicKey env yk slot w).val = Res.ok pk := by
  rcases hcw : env.certificate yk slot w with ⟨r, w1⟩
  rw [hcw] at hc
  simp at hc
  subst hc
  rcases hk with hk | hk | hk <;> simp [getPublicKey, hcw, hk, hn]

/-- The function `getPublicKey` rejects a certificate whose key is of another
type. -/
theorem getPublicKey_unexpected (env : Env σ) (yk : Handle) (slot : Slot) (w : σ)
    (cert : CryptoKey) (t : String)
    (hc : (env.certificate yk slot w).1 = Res.ok cert) (hk : cert.kind = KeyKind.other t) :
    (getPublicKey env yk slot w).val = Res.error ("unexpected public key type: " ++ t) := by
  rcases hcw : env.certificate yk slot w with ⟨r, w1⟩
  rw [hcw] at hc
  simp at hc
  subst hc
  simp [getPublicKey, hcw, hk]

/-- The function `getPublicKey` passes on the failure of `ssh.NewPublicKey`. -/
theorem getPublicKey_unprocessed (env : Env σ) (yk : Handle) (slot : Slot) (w : σ)
    (cert : CryptoKey) (e : String)
    (hc : (env.certificate yk slot w).1 = Res.ok cert)
    (hk : cert.kind = KeyKind.ecdsa ∨ cert.kind = KeyKind.ed25519 ∨ cert.kind = KeyKind.rsa)
    (hn : env.newPublicKey cert = Res.error e) :
    (getPublicKey env yk slot w).val = Res.error ("failed to process public key: " ++ e) := by
  rcases hcw : env.certificate yk slot w with ⟨r, w1⟩
  rw [hcw] at hc
  simp at hc
  subst hc
  rcases hk with hk | hk | hk <;> simp [getPublicKey, hcw, hk, hn]

/-- The value of `List` once `ensureYK` has returned nil: the error of
`getPublicKey`, or the one identity made of its key and the cached serial. -/
theorem List_after_ensure (env : Env σ) (a : Agent) (w : σ) (yk : Handle)
    (hv : (ensureYK env a w).val = none) (hy : (ensureYK env a w).agent.yk = some yk) :
    (∀ pk, (getPublicKey env yk SlotAuthentication (ensureYK env a w).world).val = Res.ok pk →
      (Agent.List env a w).val =
        Res.ok [⟨pk.type, pk.marshal, comment (ensureYK env a w).agent.serial⟩]) ∧
    (∀ e, (getPublicKey env yk SlotAuthentication (ensureYK env a w).world).val = Res.error e →
      (Agent.List env a w).val = Res.error e) := by
  constructor
  · intro pk hp
    simp [Agent.List, hv, hy, hp]
  · intro e hp
    simp [Agent.List, hv, hy, hp]

/-- C5. `List` fails with "could not reach YubiKey" when `ensureYK` fails, in
particular when no handle is held and `openYK` opens no device; it fails with
"could not get public key" when a device is connected and the certificate of
slot 9a cannot be read; and whenever it succeeds it returns exactly one
identity, whose blob is the marshalled public key of the slot's certificate and
whose comment is "YubiKey #serial PIV Slot 9a" for the cached serial, which is
the value read by the connect of this call if there was one and the value the
agent already held otherwise. It does succeed, with that identity, whenever the
device is reached and the certificate of slot 9a is read, holds an ECDSA,
Ed25519 or RSA key and `ssh.NewPublicKey` accepts it: on a healthy handle the
label carries the serial the agent held, after a fresh connect the serial just
read. For a key of another type, or one `ssh.NewPublicKey` rejects, it fails
with "unexpected public key type" or "failed to process public key". -/
theorem List_spec (env : Env σ) (a : Agent) (w : σ) :
    (∀ err, (ensureYK env a w).val = some err →
      (Agent.List env a w).val = Res.error ("could not reach YubiKey: " ++ err)) ∧
    (∀ err, a.yk = none → (openYK env w).val = (none, some err) →
      (Agent.List env a w).val = Res.error ("could not reach YubiKey: " ++ err)) ∧
    (∀ yk err, (ensureYK env a w).val = none → (ensureYK env a w).agent.yk = some yk →
      (env.certificate yk SlotAuthentication (ensureYK env a w).world).1 = Res.error err →
      (Agent.List env a w).val = Res.error ("could not get public key: " ++ err)) ∧
    (∀ ids, (Agent.List env a w).val = Res.ok ids →
      ∃ yk cert pk, (ensureYK env a w).agent.yk = some yk ∧
        (env.certificate yk SlotAuthentication (ensureYK env a w).world).1 = Res.ok cert ∧
        env.newPublicKey cert = Res.ok pk ∧
        ids = [⟨pk.type, pk.marshal, comment (ensureYK env a w).agent.serial⟩]) ∧
    (((ensureYK env a w).log.countP Event.isSerial = 0 ∧
        (ensureYK env a w).agent.serial = a.serial) ∨
      (∃ yk pre, (ensureYK env a w).log =
        pre ++ [Event.serial yk (ensureYK env a w).agent.serial])) ∧
    (∀ yk cert pk, (ensureYK env a w).val = none → (ensureYK env a w).agent.yk = some yk →
      (env.certificate yk SlotAuthentication (ensureYK env a w).world).1 = Res.ok cert →
      (cert.kind = KeyKind.ecdsa ∨ cert.kind = KeyKind.ed25519 ∨ cert.kind = KeyKind.rsa) →
      env.newPublicKey cert = Res.ok pk →
      (Agent.List env a w).val =
        Res.ok [⟨pk.type, pk.marshal, comment (ensureYK env a w).agent.serial⟩]) ∧
    (∀ yk cert pk, a.yk = some yk → (env.attestationCertificate yk w).1 = true →
      (env.certificate yk SlotAuthentication (env.attestationCertificate yk w).2).1 =
        Res.ok cert →
      (cert.kind = KeyKind.ecdsa ∨ cert.kind = KeyKind.ed25519 ∨ cert.kind = KeyKind.rsa) →
      env.newPublicKey cert = Res.ok pk →
      (Agent.List env a w).val = Res.ok [⟨pk.type, pk.marshal, comment a.serial⟩]) ∧
    (a.yk = none → ∀ yk cert pk, (openYK env w).val = (some yk, none) →
      (env.certificate yk SlotAuthentication (env.serial yk (openYK env w).world).2).1 =
        Res.ok cert →
      (cert.kind = KeyKind.ecdsa ∨ cert.kind = KeyKind.ed25519 ∨ cert.kind = KeyKind.rsa) →
      env.newPublicKey cert = Res.ok pk →
      (Agent.List env a w).val =
        Res.ok [⟨pk.type, pk.marshal, comment (env.serial yk (openYK env w).world).1⟩]) ∧
    (∀ yk cert t, (ensureYK env a w).val = none → (ensureYK env a w).agent.yk = some yk →
      (env.certificate yk SlotAuthentication (ensureYK env a w).world).1 = Res.ok cert →
      cert.kind = KeyKind.other t →
      (Agent.List env a w).val = Res.error ("unexpected public key type: " ++ t)) ∧
    (∀ yk cert e, (ensureYK env a w).val = none → (ensureYK env a w).agent.yk = some yk →
      (env.certificate yk SlotAuthentication (ensureYK env a w).world).1 = Res.ok cert →
      (cert.kind = KeyKind.ecdsa ∨ cert.kind = KeyKind.ed25519 ∨ cert.kind = KeyKind.rsa) →
      env.newPublicKey cert = Res.error e →
      (Agent.List env a w).val = Res.error ("failed to process public key: " ++ e)) := by
  have hfail : ∀ err, (ensureYK env a w).val = some err →
      (Agent.List env a w).val = Res.error ("could not reach YubiKey: " ++ err) := by
    intro err he
    simp [Agent.List, he]
  have hlist : ∀ yk cert pk, (ensureYK env a w).val = none →
      (ensureYK env a w).agent.yk = some yk →
      (env.certificate yk SlotAuthentication (ensureYK env a w).world).1 = Res.ok cert →
      (cert.kind = KeyKind.ecdsa ∨ cert.kind = KeyKind.ed25519 ∨ cert.kind = KeyKind.rsa) →
      env.newPublicKey cert = Res.ok pk →
      (Agent.List env a w).val =
        Res.ok [⟨pk.type, pk.marshal, comment (ensureYK env a w).agent.serial⟩] := by
    intro yk cert pk hv hy hc hk hn
    exact (List_after_ensure env a w yk hv hy).1 pk
      (getPublicKey_usable env yk SlotAuthentication _ cert pk hc hk hn)
  refine ⟨hfail, ?_, ?_, ?_, ?_, hlist, ?_, ?_, ?_, ?_⟩
  · intro err hn ho
    apply hfail
    rcases ensureYK_cases env a w with ⟨_, he⟩ | ⟨yk, hy, _, _⟩ | ⟨yk, hy, _, _⟩
    · rw [he]
      rcases connectToYK_spec env a w with ⟨yk, ho2, _⟩ | ⟨e, ho2, hc, _⟩
      · rw [ho] at ho2
        simp at ho2
      · rw [ho] at ho2
        simp at ho2
        subst ho2
        simp [reconnect, hc]
    · rw [hn] at hy
      simp at hy
    · rw [hn] at hy
      simp at hy
  · intro yk err hv hy hc
    have hp := getPublicKey_no_cert env yk SlotAuthentication _ err hc
    simp [Agent.List, hv, hy, hp]
  · intro ids h
    cases hv : (ensureYK env a w).val with
    | some err => simp [Agent.List, hv] at h
    | none =>
      cases hy : (ensureYK env a w).agent.yk with
      | none => simp [Agent.List, hv, hy] at h
      | some yk =>
        cases hp : (getPublicKey env yk SlotAuthentication (ensureYK env a w).world).val with
        | error e => simp [Agent.List, hv, hy, hp] at h
        | ok pk =>
          obtain ⟨cert, h1, h2, _⟩ := getPublicKey_ok env yk SlotAuthentication _ pk hp
          simp [Agent.List, hv, hy, hp] at h
          exact ⟨yk, cert, pk, rfl, h1, h2, h.symm⟩
  · rcases ensureYK_summary env a w with ⟨_, ha, _, _, _, hs⟩ | ⟨_, _, h⟩
    · left
      exact ⟨hs, by rw [ha]⟩
    · rcases h with ⟨_, _, _, yk, v, pre, hag, hl⟩ | ⟨_, ha, _, hs⟩
      · right
        refine ⟨yk, pre, ?_⟩
        rw [hl, hag]
      · left
        exact ⟨hs, by rw [ha]⟩
  · intro yk cert pk hy hh hc hk hn
    have he := ensureYK_healthy env a w yk hy hh
    have h := hlist yk cert pk (by rw [he]) (by rw [he]; exact hy) (by rw [he]; exact hc) hk hn
    rw [h, he]
  · intro hn yk cert pk ho hc hk hn2
    have he := ensureYK_fresh_ok env a w yk hn ho
    have h := hlist yk cert pk (by rw [he]) (by rw [he]) (by rw [he]; exact hc) hk hn2
    rw [h, he]
  · intro yk cert t hv hy hc hk
    exact (List_after_ensure env a w yk hv hy).2 _
      (getPublicKey_unexpected env yk SlotAuthentication _ cert t hc hk)
  · intro yk cert e hv hy hc hk hn
    exact (List_after_ensure env a w yk hv hy).2 _
      (getPublicKey_unprocessed env yk SlotAuthentication _ cert e hc hk hn)

/-- C5 at the example environments: with no card attached `List` cannot reach
the device, with an empty slot it cannot get the public key, and with the
example device it lists one identity, labelled with the serial read at the
connect of this call, or with the serial `55` cached earlier when the handle
held is healthy. -/
theorem List_spec_witness :
    (Agent.List noCardEnv ⟨none, 0⟩ 0).val =
      Res.error ("could not reach YubiKey: " ++ "no YubiKey detected") ∧
    (Agent.List emptySlotEnv ⟨none, 0⟩ 0).val =
      Res.error ("could not get public key: " ++ "command failed: smart card error 6a82") ∧
    (∃ yk cert pk, (ensureYK demoEnv ⟨none, 0⟩ 0).agent.yk = some yk ∧
        (demoEnv.certificate yk SlotAuthentication (ensureYK demoEnv ⟨none, 0⟩ 0).world).1 =
          Res.ok cert ∧
        demoEnv.newPublicKey cert = Res.ok pk ∧
        [(⟨"ssh-rsa", [0, 0, 0, 7, 115, 115, 104], "YubiKey #1234567 PIV Slot 9a"⟩ : Key)] =
          [⟨pk.type, pk.marshal, comment (ensureYK demoEnv ⟨none, 0⟩ 0).agent.serial⟩]) ∧
    (Agent.List demoEnv ⟨none, 0⟩ 0).val =
      Res.ok [⟨demoKey.type, demoKey.marshal,
        comment (demoEnv.serial 7 (openYK demoEnv 0).world).1⟩] ∧
    (Agent.List demoEnv ⟨none, 0⟩ 0).val =
      Res.ok [⟨"ssh-rsa", [0, 0, 0, 7, 115, 115, 104], "YubiKey #1234567 PIV Slot 9a"⟩] ∧
    (Agent.List demoEnv ⟨some 7, 55⟩ 0).val =
      Res.ok [⟨demoKey.type, demoKey.marshal, comment 55⟩] ∧
    (Agent.List demoEnv ⟨some 7, 55⟩ 0).val =
      Res.ok [⟨"ssh-rsa", [0, 0, 0, 7, 115, 115, 104], "YubiKey #55 PIV Slot 9a"⟩] :=
  ⟨(List_spec noCardEnv ⟨none, 0⟩ 0).2.1 "no YubiKey detected" rfl (by decide),
    (List_spec emptySlotEnv ⟨none, 0⟩ 0).2.2.1 7 "command failed: smart card error 6a82"
      (by decide) (by decide) (by decide),
    (List_spec demoEnv ⟨none, 0⟩ 0).2.2.2.1 _ (by decide),
    (List_spec demoEnv ⟨none, 0⟩ 0).2.2.2.2.2.2.2.1 rfl 7 ⟨KeyKind.rsa, 1⟩ demoKey (by decide)
      (by decide) (by decide) rfl,
    by decide,
    (List_spec demoEnv ⟨some 7, 55⟩ 0).2.2.2.2.2.2.1 7 ⟨KeyKind.rsa, 1⟩ demoKey rfl (by decide)
      (by decide) (by decide) rfl,
    by decide⟩

/-! ## Management requests and `Close` -/

/-- C6. The methods `Add`, `Remove`, `Lock` and `Unlock` return
`ErrOperationUnsupported` ("operation unsupported") and `Extension` returns
`agent.ErrExtensionUnsupported`, for every agent state and every argument;
each makes no external call and leaves the handle, the cached serial and the
external state as they were. -/
theorem management_unsupported (env : Env σ) (a : Agent) (w : σ) (added : Bytes)
    (key : PublicKey) (passphrase : Bytes) (extensionType : String) (contents : Bytes) :
    Add env a w added = ⟨some "operation unsupported", a, w, []⟩ ∧
    Remove env a w key = ⟨some "operation unsupported", a, w, []⟩ ∧
    Lock env a w passphrase = ⟨some "operation unsupported", a, w, []⟩ ∧
    Unlock env a w passphrase = ⟨some "operation unsupported", a, w, []⟩ ∧
    Extension env a w extensionType contents = ⟨Res.error ErrExtensionUnsupported, a, w, []⟩ ∧
    (Add env a w added).log.countP Event.isDevice = 0 ∧
    (Remove env a w key).log.countP Event.isDevice = 0 ∧
    (Lock env a w passphrase).log.countP Event.isDevice = 0 ∧
    (Unlock env a w passphrase).log.countP Event.isDevice = 0 ∧
    (Extension env a w extensionType contents).log.countP Event.isDevice = 0 := by
  simp [Add, Remove, Lock, Unlock, Extension, ErrOperationUnsupported]

/-- C7, as stated, fails: on a device whose `Close` reports an error,
`RemoveAll` returns that error, not nil. -/
theorem RemoveAll_returns_close_error :
    (RemoveAll closeFailsEnv ⟨some 7, 1234567⟩ 0).val = some "transaction failed" ∧
    ¬ ((RemoveAll closeFailsEnv ⟨some 7, 1234567⟩ 0).val = none ∧
      (RemoveAll closeFailsEnv ⟨some 7, 1234567⟩ 0).log.countP Event.isClose = 1 ∧
      (RemoveAll closeFailsEnv ⟨some 7, 1234567⟩ 0).agent.yk = none) := by
  decide

/-- C7, amended. `RemoveAll` is exactly one `Close` of the device session,
after which the agent holds no handle, and it returns what that `Close`
returns: with no handle open it makes no device call and returns nil; with a
handle open it issues exactly one `yk.Close()` on it and returns that call's
error, which is nil exactly when the device close succeeds. -/
theorem RemoveAll_spec (env : Env σ) (a : Agent) (w : σ) :
    RemoveAll env a w = Close env a w ∧
    (RemoveAll env a w).agent.yk = none ∧
    (a.yk = none → (RemoveAll env a w).val = none ∧ (RemoveAll env a w).log = []) ∧
    (∀ yk, a.yk = some yk →
      (RemoveAll env a w).val = (env.close yk w).1 ∧
      (RemoveAll env a w).log = [Event.close yk (env.close yk w).1.isNone] ∧
      (RemoveAll env a w).log.countP Event.isClose = 1) := by
  cases hy : a.yk with
  | none => simp [RemoveAll, Close, hy]
  | some yk => simp [RemoveAll, Close, hy, Event.isClose]

/-- C7, amended, at the example device: one `yk.Close()` on the open handle,
which succeeds, so `RemoveAll` returns nil. -/
theorem RemoveAll_spec_witness :
    (RemoveAll demoEnv ⟨some 7, 1234567⟩ 0).val = (demoEnv.close 7 0).1 ∧
    (RemoveAll demoEnv ⟨some 7, 1234567⟩ 0).log =
      [Event.close 7 (demoEnv.close 7 0).1.isNone] ∧
    (RemoveAll demoEnv ⟨some 7, 1234567⟩ 0).log.countP Event.isClose = 1 :=
  (RemoveAll_spec demoEnv ⟨some 7, 1234567⟩ 0).2.2.2 7 rfl

/-- C8, as stated, fails: after `Close` the agent still holds the serial it
had cached; the field is not reset to its zero value. -/
theorem Close_keeps_serial :
    (Close demoEnv ⟨some 7, 1234567⟩ 0).agent.serial = 1234567 ∧
    ¬ ((Close demoEnv ⟨some 7, 1234567⟩ 0).agent.yk = none ∧
      (Close demoEnv ⟨some 7, 1234567⟩ 0).agent.serial = 0) := by
  decide

/-- C8, amended. After `Close` returns the agent holds no device handle,
whether or not a handle was open and whatever the device close reported; the
cached serial keeps the value it had. -/
theorem Close_spec (env : Env σ) (a : Agent) (w : σ) :
    (Close env a w).agent.yk = none ∧ (Close env a w).agent.serial = a.serial := by
  cases hy : a.yk with
  | none => simp [Close, hy]
  | some yk => simp [Close, hy]

/-! ## `SignWithFlags` -/

theorem failedOpens_session (cs : List Card) : ∀ e ∈ failedOpens cs, e.isSession = true := by
  intro e he
  simp only [failedOpens, List.mem_map] at he
  obtain ⟨c, _, hc⟩ := he
  subst hc
  rfl

theorem openYK_log_session (env : Env σ) (w : σ) :
    ∀ e ∈ (openYK env w).log, e.isSession = true := by
  intro e he
  rcases openYK_spec env w with ⟨cs, pre, c, post, yk, w1, _, _, _, _, hl⟩ | ⟨err, _, hl⟩
  · rw [hl] at he
    simp only [List.mem_cons, List.mem_append, List.mem_singleton] at he
    rcases he with h | h | h
    · subst h; rfl
    · exact failedOpens_session pre e h
    · rcases h with h | h
      · subst h; rfl
      · simp at h
  · rcases hl with ⟨_, hl⟩ | ⟨_, _, hl⟩ | ⟨cs, _, _, hl⟩
    · rw [hl] at he
      simp at he
      subst he; rfl
    · rw [hl] at he
      simp at he
      subst he; rfl
    · rw [hl] at he
      simp only [List.mem_cons] at he
      rcases he with h | h
      · subst h; rfl
      · exact failedOpens_session cs e h

theorem connectToYK_log_session (env : Env σ) (a : Agent) (w : σ) :
    ∀ e ∈ (connectToYK env a w).log, e.isSession = true := by
  intro e he
  rcases connectToYK_spec env a w with ⟨yk, _, _, _, hl⟩ | ⟨err, _, _, _, hl⟩
  · rw [hl] at he
    simp only [List.mem_append, List.mem_singleton] at he
    rcases he with h | h
    · exact openYK_log_session env w e h
    · subst h; rfl
  · rw [hl] at he
    exact openYK_log_session env w e he

theorem ensureYK_log_session (env : Env σ) (a : Agent) (w : σ) :
    ∀ e ∈ (ensureYK env a w).log, e.isSession = true := by
  intro e he
  rcases ensureYK_cases env a w with ⟨_, h⟩ | ⟨yk, _, _, h⟩ | ⟨yk, _, _, h⟩
  · rw [h, (reconnect_spec env a w []).1] at he
    simp only [List.nil_append] at he
    exact connectToYK_log_session env a w e he
  · rw [h] at he
    simp at he
    subst he; rfl
  · rw [h, (reconnect_spec env a _ _).1] at he
    simp only [List.mem_append, List.mem_cons] at he
    rcases he with (h1 | h1 | h1) | h1
    · subst h1; rfl
    · subst h1; rfl
    · simp at h1
    · exact connectToYK_log_session env a _ e h1

theorem getPublicKey_log (env : Env σ) (yk : Handle) (slot : Slot) (w : σ) :
    ∃ ok, (getPublicKey env yk slot w).log = [Event.certificate yk slot ok] := by
  rcases hc : env.certificate yk slot w with ⟨r, w1⟩
  cases r with
  | error e => exact ⟨false, by simp [getPublicKey, hc]⟩
  | ok cert =>
    refine ⟨true, ?_⟩
    cases hk : cert.kind <;> cases hn : env.newPublicKey cert <;>
      simp [getPublicKey, hc, hk, hn]

theorem signers_log_session (env : Env σ) (a : Agent) (w : σ) :
    ∀ e ∈ (signers env a w).log, e.isSession = true := by
  intro e he
  cases hy : a.yk with
  | none => simp [signers, hy] at he
  | some yk =>
    obtain ⟨ok, hl⟩ := getPublicKey_log env yk SlotAuthentication w
    cases hp : (getPublicKey env yk SlotAuthentication w).val with
    | error err =>
      simp [signers, hy, hp, hl] at he
      subst he; rfl
    | ok pk =>
      rcases hk : env.privateKey yk SlotAuthentication pk.cryptoPublicKey
        (getPublicKey env yk SlotAuthentication w).world with ⟨r, w1⟩
      cases r with
      | error err =>
        simp [signers, hy, hp, hl, hk] at he
        rcases he with h | h <;> subst h <;> rfl
      | ok priv =>
        cases hn : env.newSignerFromKey priv with
        | error err =>
          simp [signers, hy, hp, hl, hk, hn] at he
          rcases he with h | h <;> subst h <;> rfl
        | ok sg =>
          simp [signers, hy, hp, hl, hk, hn] at he
          rcases he with h | h <;> subst h <;> rfl

/-- On success `signers` returns exactly one signer. -/
theorem signers_ok_single (env : Env σ) (a : Agent) (w : σ) (ss : List Signer)
    (h : (signers env a w).val = Res.ok ss) : ∃ sg, ss = [sg] := by
  cases hy : a.yk with
  | none => simp [signers, hy] at h
  | some yk =>
    cases hp : (getPublicKey env yk SlotAuthentication w).val with
    | error err => simp [signers, hy, hp] at h
    | ok pk =>
      rcases hk : env.privateKey yk SlotAuthentication pk.cryptoPublicKey
        (getPublicKey env yk SlotAuthentication w).world with ⟨r, w1⟩
      cases r with
      | error err => simp [signers, hy, hp, hk] at h
      | ok priv =>
        cases hn : env.newSignerFromKey priv with
        | error err => simp [signers, hy, hp, hk, hn] at h
        | ok sg =>
          simp [signers, hy, hp, hk, hn] at h
          exact ⟨sg, h.symm⟩

theorem maybeReleaseYK_log_session (env : Env σ) (a : Agent) (w : σ) :
    ∀ e ∈ (maybeReleaseYK env a w).log, e.isSession = true := by
  intro e he
  unfold maybeReleaseYK at he
  split at he
  · simp at he
  · split at he
    · simp at he
    · split at he
      · simp at he
      · simp at he
        subst he; rfl

theorem getPIN_log_callback (env : Env σ) (a : Agent) (w : σ) :
    ∀ e ∈ (Agent.getPIN env a w).log, e.isCallback = true := by
  intro e he
  cases hy : a.yk with
  | none => simp [Agent.getPIN, hy] at he
  | some yk =>
    simp [Agent.getPIN, hy] at he
    rcases he with h | h | h <;> subst h <;> rfl

theorem runSign_log_callback (env : Env σ) (a : Agent) (run : SignRun σ) :
    ∀ e ∈ (runSign env a run).log, e.isCallback = true := by
  induction run with
  | done r w =>
    intro e he
    simp [runSign] at he
  | askPIN w k ih =>
    intro e he
    simp only [runSign, List.mem_append] at he
    rcases he with h | h
    · exact getPIN_log_callback env a w e h
    · exact ih _ _ e h

/-- The loop of `SignWithFlags` either finds no signer for the target key and
does nothing, or signs with the first signer whose marshalled key equals the
target's: icon path, start of the touch task, sleep, device signing call. -/
theorem signLoop_spec (env : Env σ) (a : Agent) (key : PublicKey) (data : Bytes) (flags : Nat) :
    ∀ (ss : List Signer) (w : σ),
      ((∀ s ∈ ss, s.pub.marshal ≠ key.marshal) ∧
        signLoop env a key data flags ss w =
          ⟨Res.error "no private keys match the requested public key", a, w, [], []⟩) ∨
      (∃ s, s ∈ ss ∧ s.pub.marshal = key.marshal ∧
        signLoop env a key data flags ss w =
          ⟨(runSign env a (env.signWithAlgorithm s.priv data (sigAlg key.type flags)
                (env.getEmbeddedIconPath w).2)).val,
            a,
            (runSign env a (env.signWithAlgorithm s.priv data (sigAlg key.type flags)
                (env.getEmbeddedIconPath w).2)).world,
            [Event.iconPath, Event.goTouch a.serial (env.getEmbeddedIconPath w).1,
                Event.sleep 100,
                Event.signWithAlgorithm s.priv data (sigAlg key.type flags)] ++
              (runSign env a (env.signWithAlgorithm s.priv data (sigAlg key.type flags)
                (env.getEmbeddedIconPath w).2)).log,
            touchTask env a.serial (env.getEmbeddedIconPath w).1⟩) := by
  intro ss
  induction ss with
  | nil =>
    intro w
    left
    simp [signLoop]
  | cons s rest ih =>
    intro w
    by_cases hm : s.pub.marshal = key.marshal
    · right
      exact ⟨s, by simp, hm, by simp [signLoop, hm]⟩
    · rcases ih w with ⟨hall, hr⟩ | ⟨s2, hs2, hm2, hr⟩
      · left
        refine ⟨?_, by simp [signLoop, hm, hr]⟩
        intro x hx
        simp only [List.mem_cons] at hx
        rcases hx with hx | hx
        · subst hx
          exact hm
        · exact hall x hx
      · right
        exact ⟨s2, by simp [hs2], hm2, by simp [signLoop, hm, hr]⟩

/-- The two shapes of a run of `SignWithFlags`. Either it stops before any
presence prompt (the device is unreachable, the signer cannot be resolved, or
no resolved signer has the target key): then its log holds session calls only
and no touch task was started. Or the resolved signer has the target key: then
the log is session calls, the icon path, the start of the touch task, the
sleep, the device signing call with the algorithm computed from the target
key's type and the flags, and after it only callback and session calls. -/
theorem SignWithFlags_shape (env : Env σ) (a : Agent) (w : σ) (key : PublicKey) (data : Bytes)
    (flags : Nat) :
    ((SignWithFlags env a w key data flags).task = [] ∧
      (∀ e ∈ (SignWithFlags env a w key data flags).log, e.isSession = true) ∧
      ((∃ err, (ensureYK env a w).val = some err ∧
          (SignWithFlags env a w key data flags).val =
            Res.error ("could not reach YubiKey: " ++ err)) ∨
        ((ensureYK env a w).val = none ∧
          ∃ err, (signers env (ensureYK env a w).agent (ensureYK env a w).world).val =
              Res.error err ∧
            (SignWithFlags env a w key data flags).val = Res.error err) ∨
        ((ensureYK env a w).val = none ∧
          ∃ ss, (signers env (ensureYK env a w).agent (ensureYK env a w).world).val =
              Res.ok ss ∧
            (∀ s ∈ ss, s.pub.marshal ≠ key.marshal) ∧
            (SignWithFlags env a w key data flags).val =
              Res.error "no private keys match the requested public key"))) ∨
    (∃ ss s pre post path w1,
      (ensureYK env a w).val = none ∧
      (signers env (ensureYK env a w).agent (ensureYK env a w).world).val = Res.ok ss ∧
      s ∈ ss ∧ s.pub.marshal = key.marshal ∧
      (SignWithFlags env a w key data flags).log =
        pre ++ [Event.iconPath, Event.goTouch (ensureYK env a w).agent.serial path,
          Event.sleep 100, Event.signWithAlgorithm s.priv data (sigAlg key.type flags)] ++ post ∧
      (∀ e ∈ pre, e.isSession = true) ∧
      (∀ e ∈ post, e.isSession = true ∨ e.isCallback = true) ∧
      (SignWithFlags env a w key data flags).task =
        touchTask env (ensureYK env a w).agent.serial path ∧
      (SignWithFlags env a w key data flags).val =
        (runSign env (ensureYK env a w).agent
          (env.signWithAlgorithm s.priv data (sigAlg key.type flags) w1)).val) := by
  have hE := ensureYK_log_session env a w
  cases hv : (ensureYK env a w).val with
  | some err =>
    left
    refine ⟨by simp [SignWithFlags, hv], ?_, Or.inl ⟨err, rfl, by simp [SignWithFlags, hv]⟩⟩
    intro e he
    simp only [SignWithFlags, hv] at he
    exact hE e he
  | none =>
    have hS := signers_log_session env (ensureYK env a w).agent (ensureYK env a w).world
    cases hs : (signers env (ensureYK env a w).agent (ensureYK env a w).world).val with
    | error err =>
      left
      refine ⟨by simp [SignWithFlags, hv, hs], ?_,
        Or.inr (Or.inl ⟨rfl, err, rfl, by simp [SignWithFlags, hv, hs]⟩)⟩
      intro e he
      simp only [SignWithFlags, hv, hs, List.append_nil, List.mem_append] at he
      rcases he with (h | h) | h
      · exact hE e h
      · exact hS e h
      · exact maybeReleaseYK_log_session env _ _ e h
    | ok ss =>
      rcases signLoop_spec env (ensureYK env a w).agent key data flags ss
          (signers env (ensureYK env a w).agent (ensureYK env a w).world).world with
        ⟨hall, hr⟩ | ⟨s, hmem, hm, hr⟩
      · left
        refine ⟨by simp [SignWithFlags, hv, hs, hr], ?_,
          Or.inr (Or.inr ⟨rfl, ss, rfl, hall, by simp [SignWithFlags, hv, hs, hr]⟩)⟩
        intro e he
        simp only [SignWithFlags, hv, hs, hr, List.append_nil, List.mem_append] at he
        rcases he with (h | h) | h
        · exact hE e h
        · exact hS e h
        · exact maybeReleaseYK_log_session env _ _ e h
      · right
        refine ⟨ss, s, (ensureYK env a w).log ++
            (signers env (ensureYK env a w).agent (ensureYK env a w).world).log,
          (runSign env (ensureYK env a w).agent
              (env.signWithAlgorithm s.priv data (sigAlg key.type flags)
                (env.getEmbeddedIconPath
                  (signers env (ensureYK env a w).agent (ensureYK env a w).world).world).2)).log ++
            (maybeReleaseYK env (ensureYK env a w).agent
              (runSign env (ensureYK env a w).agent
                (env.signWithAlgorithm s.priv data (sigAlg key.type flags)
                  (env.getEmbeddedIconPath
                    (signers env (ensureYK env a w).agent
                      (ensureYK env a w).world).world).2)).world).log,
          (env.getEmbeddedIconPath
            (signers env (ensureYK env a w).agent (ensureYK env a w).world).world).1,
          (env.getEmbeddedIconPath
            (signers env (ensureYK env a w).agent (ensureYK env a w).world).world).2,
          rfl, rfl, hmem, hm, ?_, ?_, ?_, ?_, ?_⟩
        · simp only [SignWithFlags, hv, hs, hr]
          simp only [List.append_assoc]
        · intro e he
          simp only [List.mem_append] at he
          rcases he with h | h
          · exact hE e h
          · exact hS e h
        · intro e he
          simp only [List.mem_append] at he
          rcases he with h | h
          · exact Or.inr (runSign_log_callback env _ _ e h)
          · exact Or.inl (maybeReleaseYK_log_session env _ _ e h)
        · simp [SignWithFlags, hv, hs, hr]
        · simp [SignWithFlags, hv, hs, hr]

/-- A log of session calls holds no PIN dialog, no start of the touch task and
no device signing call. -/
theorem session_counts (l : List Event) (h : ∀ e ∈ l, e.isSession = true) :
    l.countP Event.isGetPIN = 0 ∧ l.countP Event.isGoTouch = 0 ∧ l.countP Event.isSign = 0 := by
  refine ⟨?_, ?_, ?_⟩ <;>
  · rw [List.countP_eq_zero]
    intro e he
    have hs := h e he
    cases e <;> simp_all [Event.isSession, Event.isGetPIN, Event.isGoTouch, Event.isSign]

/-- A log of session and callback calls holds no start of the touch task and
no device signing call. -/
theorem callback_counts (l : List Event)
    (h : ∀ e ∈ l, e.isSession = true ∨ e.isCallback = true) :
    l.countP Event.isGoTouch = 0 ∧ l.countP Event.isSign = 0 := by
  refine ⟨?_, ?_⟩ <;>
  · rw [List.countP_eq_zero]
    intro e he
    have hs := h e he
    cases e <;> simp_all [Event.isSession, Event.isCallback, Event.isGoTouch, Event.isSign]

/-- C1. When the target key's marshalled bytes differ from those of the public
key of every signer resolved from slot 9a, `SignWithFlags` shows no PIN dialog,
does not start the touch-prompt task and never calls the device signer; and
when the device is reachable and the signer is resolved, it returns the error
"no private keys match the requested public key". -/
theorem SignWithFlags_no_match (env : Env σ) (a : Agent) (w : σ) (key : PublicKey)
    (data : Bytes) (flags : Nat)
    (hne : (ensureYK env a w).val = none → ∀ ss,
      (signers env (ensureYK env a w).agent (ensureYK env a w).world).val = Res.ok ss →
      ∀ s ∈ ss, s.pub.marshal ≠ key.marshal) :
    ((ensureYK env a w).val = none →
      (∃ ss, (signers env (ensureYK env a w).agent (ensureYK env a w).world).val = Res.ok ss) →
      (SignWithFlags env a w key data flags).val =
        Res.error "no private keys match the requested public key") ∧
    (SignWithFlags env a w key data flags).log.countP Event.isGetPIN = 0 ∧
    (SignWithFlags env a w key data flags).log.countP Event.isGoTouch = 0 ∧
    (SignWithFlags env a w key data flags).task = [] ∧
    (SignWithFlags env a w key data flags).log.countP Event.isSign = 0 := by
  rcases SignWithFlags_shape env a w key data flags with ⟨ht, hl, hc⟩ |
    ⟨ss, s, pre, post, path, w1, hv, hs, hmem, hm, _⟩
  · obtain ⟨c1, c2, c3⟩ := session_counts _ hl
    refine ⟨?_, c1, c2, ht, c3⟩
    intro hv hss
    obtain ⟨ss, hss⟩ := hss
    rcases hc with ⟨err, he, _⟩ | ⟨_, err, he, _⟩ | ⟨_, ss2, _, _, hr⟩
    · rw [hv] at he
      simp at he
    · rw [hss] at he
      simp at he
    · exact hr
  · exact absurd hm (hne hv ss hs s hmem)

/-- C1 at the example device, asked to sign for a key it does not hold: the
error is returned and nothing is prompted. -/
theorem SignWithFlags_no_match_witness :
    (SignWithFlags demoEnv ⟨none, 0⟩ 0 otherKey [1, 2, 3] 0).val =
      Res.error "no private keys match the requested public key" ∧
    (SignWithFlags demoEnv ⟨none, 0⟩ 0 otherKey [1, 2, 3] 0).log.countP Event.isGetPIN = 0 ∧
    (SignWithFlags demoEnv ⟨none, 0⟩ 0 otherKey [1, 2, 3] 0).log.countP Event.isGoTouch = 0 ∧
    (SignWithFlags demoEnv ⟨none, 0⟩ 0 otherKey [1, 2, 3] 0).task = [] ∧
    (SignWithFlags demoEnv ⟨none, 0⟩ 0 otherKey [1, 2, 3] 0).log.countP Event.isSign = 0 := by
  have hsig : (signers demoEnv (ensureYK demoEnv ⟨none, 0⟩ 0).agent
      (ensureYK demoEnv ⟨none, 0⟩ 0).world).val = Res.ok [⟨demoKey, 1⟩] := by decide
  have h := SignWithFlags_no_match demoEnv ⟨none, 0⟩ 0 otherKey [1, 2, 3] 0 (by
    intro _ ss hss s hs
    rw [hsig] at hss
    cases hss
    simp only [List.mem_singleton] at hs
    subst hs
    decide)
  exact ⟨h.1 (by decide) ⟨_, hsig⟩, h.2⟩

/-- The loop of `SignWithFlags` skips the signers whose key differs from the
target's and signs with the first one whose key equals it: the device signer is
run on the payload with the algorithm computed from the target key's type and
the flags. -/
theorem signLoop_first_match (env : Env σ) (a : Agent) (key : PublicKey) (data : Bytes)
    (flags : Nat) (s : Signer) (post : List Signer) (hm : s.pub.marshal = key.marshal) :
    ∀ (pre : List Signer) (w : σ), (∀ x ∈ pre, x.pub.marshal ≠ key.marshal) →
      signLoop env a key data flags (pre ++ s :: post) w =
        ⟨(runSign env a (env.signWithAlgorithm s.priv data (sigAlg key.type flags)
              (env.getEmbeddedIconPath w).2)).val,
          a,
          (runSign env a (env.signWithAlgorithm s.priv data (sigAlg key.type flags)
              (env.getEmbeddedIconPath w).2)).world,
          [Event.iconPath, Event.goTouch a.serial (env.getEmbeddedIconPath w).1,
              Event.sleep 100,
              Event.signWithAlgorithm s.priv data (sigAlg key.type flags)] ++
            (runSign env a (env.signWithAlgorithm s.priv data (sigAlg key.type flags)
              (env.getEmbeddedIconPath w).2)).log,
          touchTask env a.serial (env.getEmbeddedIconPath w).1⟩ := by
  intro pre
  induction pre with
  | nil =>
    intro w _
    simp [signLoop, hm]
  | cons x rest ih =>
    intro w hpre
    have hx : x.pub.marshal ≠ key.marshal := hpre x (by simp)
    have hrest : ∀ y ∈ rest, y.pub.marshal ≠ key.marshal := fun y hy => hpre y (by simp [hy])
    simp only [List.cons_append, signLoop, hx, ne_eq, not_false_eq_true, if_true]
    exact ih w hrest

/-- C2. Every `SignWithAlgorithm` call that `SignWithFlags` makes carries the
payload and the algorithm computed from the target key's type and the flags
alone: for type ssh-rsa it is rsa-sha2-256 when the SHA-256 flag is set,
rsa-sha2-512 when only the SHA-512 flag is set, and ssh-rsa when neither is
set; for every other type it is the type itself, whatever the flags. When the
device is reached and the first resolved signer with the target's key bytes is
`s`, the device signer of `s` is called exactly once, on the payload with that
algorithm, and what `SignWithFlags` returns is the result of that call: of the
run of `env.signWithAlgorithm` with its PIN callbacks answered, and the
signer's own answer when it asks for no PIN. -/
theorem SignWithFlags_algorithm (env : Env σ) (a : Agent) (w : σ) (key : PublicKey)
    (data : Bytes) (flags : Nat) :
    (∀ priv d alg,
      Event.signWithAlgorithm priv d alg ∈ (SignWithFlags env a w key data flags).log →
      alg = sigAlg key.type flags ∧ d = data) ∧
    (key.type = "ssh-rsa" → flags &&& 2 ≠ 0 → sigAlg key.type flags = "rsa-sha2-256") ∧
    (key.type = "ssh-rsa" → flags &&& 2 = 0 → flags &&& 4 ≠ 0 →
      sigAlg key.type flags = "rsa-sha2-512") ∧
    (key.type = "ssh-rsa" → flags &&& 2 = 0 → flags &&& 4 = 0 →
      sigAlg key.type flags = "ssh-rsa") ∧
    (key.type ≠ "ssh-rsa" → sigAlg key.type flags = key.type) ∧
    (∀ pre s post, (ensureYK env a w).val = none →
      (signers env (ensureYK env a w).agent (ensureYK env a w).world).val =
        Res.ok (pre ++ s :: post) →
      (∀ x ∈ pre, x.pub.marshal ≠ key.marshal) → s.pub.marshal = key.marshal →
      (SignWithFlags env a w key data flags).val =
        (runSign env (ensureYK env a w).agent
          (env.signWithAlgorithm s.priv data (sigAlg key.type flags)
            (env.getEmbeddedIconPath
              (signers env (ensureYK env a w).agent (ensureYK env a w).world).world).2)).val ∧
      Event.signWithAlgorithm s.priv data (sigAlg key.type flags) ∈
        (SignWithFlags env a w key data flags).log ∧
      (SignWithFlags env a w key data flags).log.countP Event.isSign = 1) ∧
    (∀ pre s post r w2, (ensureYK env a w).val = none →
      (signers env (ensureYK env a w).agent (ensureYK env a w).world).val =
        Res.ok (pre ++ s :: post) →
      (∀ x ∈ pre, x.pub.marshal ≠ key.marshal) → s.pub.marshal = key.marshal →
      env.signWithAlgorithm s.priv data (sigAlg key.type flags)
          (env.getEmbeddedIconPath
            (signers env (ensureYK env a w).agent (ensureYK env a w).world).world).2 =
        SignRun.done r w2 →
      (SignWithFlags env a w key data flags).val = r) := by
  have hrun : ∀ pre s post, (ensureYK env a w).val = none →
      (signers env (ensureYK env a w).agent (ensureYK env a w).world).val =
        Res.ok (pre ++ s :: post) →
      (∀ x ∈ pre, x.pub.marshal ≠ key.marshal) → s.pub.marshal = key.marshal →
      (SignWithFlags env a w key data flags).val =
        (runSign env (ensureYK env a w).agent
          (env.signWithAlgorithm s.priv data (sigAlg key.type flags)
            (env.getEmbeddedIconPath
              (signers env (ensureYK env a w).agent (ensureYK env a w).world).world).2)).val := by
    intro pre s post hv hs hpre hm
    have hloop := signLoop_first_match env (ensureYK env a w).agent key data flags s post hm pre
      (signers env (ensureYK env a w).agent (ensureYK env a w).world).world hpre
    simp only [SignWithFlags, hv, hs, hloop]
  refine ⟨?_, ?_, ?_, ?_, ?_, ?_, ?_⟩
  · intro priv d alg hmem
    rcases SignWithFlags_shape env a w key data flags with ⟨_, hl, _⟩ |
      ⟨ss, s, pre, post, path, w1, _, _, _, _, hlog, hpre, hpost, _⟩
    · have := hl _ hmem
      simp [Event.isSession] at this
    · rw [hlog] at hmem
      simp only [List.mem_append, List.mem_cons] at hmem
      rcases hmem with (h | h) | h
      · have := hpre _ h
        simp [Event.isSession] at this
      · rcases h with h | h | h | h | h
        · simp at h
        · simp at h
        · simp at h
        · simp only [Event.signWithAlgorithm.injEq] at h
          exact ⟨h.2.2, h.2.1⟩
        · simp at h
      · have := hpost _ h
        simp [Event.isSession, Event.isCallback] at this
  · intro ht hf
    simp [sigAlg, KeyAlgoRSA, SignatureFlagRsaSha256, SigAlgoRSASHA2256, ht, hf]
  · intro ht hf hg
    simp [sigAlg, KeyAlgoRSA, SignatureFlagRsaSha256, SignatureFlagRsaSha512,
      SigAlgoRSASHA2512, ht, hf, hg]
  · intro ht hf hg
    simp [sigAlg, KeyAlgoRSA, SignatureFlagRsaSha256, SignatureFlagRsaSha512, ht, hf, hg]
  · intro ht
    simp [sigAlg, KeyAlgoRSA, ht]
  · intro pre s post hv hs hpre hm
    refine ⟨hrun pre s post hv hs hpre hm, ?_, ?_⟩
    · have hloop := signLoop_first_match env (ensureYK env a w).agent key data flags s post hm
        pre (signers env (ensureYK env a w).agent (ensureYK env a w).world).world hpre
      simp only [SignWithFlags, hv, hs, hloop]
      simp
    · have hloop := signLoop_first_match env (ensureYK env a w).agent key data flags s post hm
        pre (signers env (ensureYK env a w).agent (ensureYK env a w).world).world hpre
      have h1 := (session_counts _ (ensureYK_log_session env a w)).2.2
      have h2 := (session_counts _
        (signers_log_session env (ensureYK env a w).agent (ensureYK env a w).world)).2.2
      have h3 : ∀ run, (runSign env (ensureYK env a w).agent run).log.countP Event.isSign = 0 :=
        fun run => (callback_counts _
          (fun e he => Or.inr (runSign_log_callback env _ run e he))).2
      have h4 : ∀ ag w3, (maybeReleaseYK env ag w3).log.countP Event.isSign = 0 :=
        fun ag w3 => (session_counts _ (maybeReleaseYK_log_session env ag w3)).2.2
      simp only [SignWithFlags, hv, hs, hloop]
      simp [List.countP_append, List.countP_cons, h1, h2, h3, h4, Event.isSign]
  · intro pre s post r w2 hv hs hpre hm hdone
    rw [hrun pre s post hv hs hpre hm, hdone]
    rfl

/-- C2 at the example device, which holds an RSA key and whose signatures name
the algorithm the signer was given: with the SHA-256 flag set the device signer
is called once, with rsa-sha2-256, and its signature is the result; with only
the SHA-512 flag it is rsa-sha2-512, with no flag ssh-rsa. -/
theorem SignWithFlags_algorithm_witness :
    Event.signWithAlgorithm 1 [1, 2, 3] "rsa-sha2-256" ∈
      (SignWithFlags demoEnv ⟨none, 0⟩ 0 demoKey [1, 2, 3] 2).log ∧
    "rsa-sha2-256" = sigAlg demoKey.type 2 ∧
    sigAlg demoKey.type 2 = "rsa-sha2-256" ∧
    sigAlg otherKey.type 6 = otherKey.type ∧
    (SignWithFlags demoEnv ⟨none, 0⟩ 0 demoKey [1, 2, 3] 2).val =
      Res.ok ⟨"rsa-sha2-256", [1, 2, 3]⟩ ∧
    (SignWithFlags demoEnv ⟨none, 0⟩ 0 demoKey [1, 2, 3] 2).log.countP Event.isSign = 1 ∧
    (SignWithFlags noPinEnv ⟨none, 0⟩ 0 demoKey [1, 2, 3] 4).val =
      Res.ok ⟨"rsa-sha2-512", [1, 2, 3]⟩ ∧
    (SignWithFlags demoEnv ⟨none, 0⟩ 0 demoKey [1, 2, 3] 4).val =
      Res.ok ⟨"rsa-sha2-512", [1, 2, 3]⟩ ∧
    (SignWithFlags demoEnv ⟨none, 0⟩ 0 demoKey [1, 2, 3] 6).val =
      Res.ok ⟨"rsa-sha2-256", [1, 2, 3]⟩ ∧
    (SignWithFlags demoEnv ⟨none, 0⟩ 0 demoKey [1, 2, 3] 0).val =
      Res.ok ⟨"ssh-rsa", [1, 2, 3]⟩ :=
  ⟨by decide,
    ((SignWithFlags_algorithm demoEnv ⟨none, 0⟩ 0 demoKey [1, 2, 3] 2).1 1 [1, 2, 3]
      "rsa-sha2-256" (by decide)).1,
    (SignWithFlags_algorithm demoEnv ⟨none, 0⟩ 0 demoKey [1, 2, 3] 2).2.1 rfl (by decide),
    (SignWithFlags_algorithm demoEnv ⟨none, 0⟩ 0 otherKey [1, 2, 3] 6).2.2.2.2.1 (by decide),
    ((SignWithFlags_algorithm demoEnv ⟨none, 0⟩ 0 demoKey [1, 2, 3] 2).2.2.2.2.2.1 []
      ⟨demoKey, 1⟩ [] (by decide) (by decide) (by simp) rfl).1.trans (by decide),
    ((SignWithFlags_algorithm demoEnv ⟨none, 0⟩ 0 demoKey [1, 2, 3] 2).2.2.2.2.2.1 []
      ⟨demoKey, 1⟩ [] (by decide) (by decide) (by simp) rfl).2.2,
    (SignWithFlags_algorithm noPinEnv ⟨none, 0⟩ 0 demoKey [1, 2, 3] 4).2.2.2.2.2.2 []
      ⟨demoKey, 1⟩ [] (Res.ok ⟨"rsa-sha2-512", [1, 2, 3]⟩) 7 (by decide) (by decide) (by simp)
      rfl rfl,
    by decide, by decide, by decide⟩

/-! ## The touch dialog does not reach the signing result -/

theorem openLoop_touch (env : Env σ) (pt : Nat → String → Option String) :
    ∀ (cards : List Card) (cur : Option Handle × Option String) (w : σ),
      openLoop (withPromptTouch env pt) cards cur w = openLoop env cards cur w := by
  intro cards
  induction cards with
  | nil =>
    intro cur w
    rfl
  | cons c cs ih =>
    intro cur w
    simp only [openLoop, ih]
    rfl

theorem ensureYK_touch (env : Env σ) (pt : Nat → String → Option String) (a : Agent) (w : σ) :
    ensureYK (withPromptTouch env pt) a w = ensureYK env a w := by
  have hopen : ∀ w1, openYK (withPromptTouch env pt) w1 = openYK env w1 := by
    intro w1
    simp only [openYK, openLoop_touch]
    rfl
  have hconn : ∀ w1, connectToYK (withPromptTouch env pt) a w1 = connectToYK env a w1 := by
    intro w1
    simp only [connectToYK, hopen]
    rfl
  have hrec : ∀ w1 pre, reconnect (withPromptTouch env pt) a w1 pre = reconnect env a w1 pre := by
    intro w1 pre
    simp only [reconnect, hconn]
  simp only [ensureYK, hrec]
  rfl

theorem signers_touch (env : Env σ) (pt : Nat → String → Option String) (a : Agent) (w : σ) :
    signers (withPromptTouch env pt) a w = signers env a w := rfl

theorem maybeReleaseYK_touch (env : Env σ) (pt : Nat → String → Option String) (a : Agent)
    (w : σ) : maybeReleaseYK (withPromptTouch env pt) a w = maybeReleaseYK env a w := rfl

theorem runSign_touch (env : Env σ) (pt : Nat → String → Option String) (a : Agent)
    (run : SignRun σ) : runSign (withPromptTouch env pt) a run = runSign env a run := by
  induction run with
  | done r w => rfl
  | askPIN w k ih =>
    simp only [runSign]
    have hp : Agent.getPIN (withPromptTouch env pt) a w = Agent.getPIN env a w := rfl
    rw [hp, ih]

/-- The loop of `SignWithFlags` under another touch dialog: everything but the
calls of the detached task is the same. -/
theorem signLoop_touch (env : Env σ) (pt : Nat → String → Option String) (a : Agent)
    (key : PublicKey) (data : Bytes) (flags : Nat) :
    ∀ (ss : List Signer) (w : σ),
      (signLoop (withPromptTouch env pt) a key data flags ss w).val =
          (signLoop env a key data flags ss w).val ∧
      (signLoop (withPromptTouch env pt) a key data flags ss w).agent =
          (signLoop env a key data flags ss w).agent ∧
      (signLoop (withPromptTouch env pt) a key data flags ss w).world =
          (signLoop env a key data flags ss w).world ∧
      (signLoop (withPromptTouch env pt) a key data flags ss w).log =
          (signLoop env a key data flags ss w).log := by
  intro ss
  induction ss with
  | nil =>
    intro w
    simp [signLoop]
  | cons s rest ih =>
    intro w
    by_cases hm : s.pub.marshal = key.marshal
    · have hg : (withPromptTouch env pt).getEmbeddedIconPath = env.getEmbeddedIconPath := rfl
      have hsw : (withPromptTouch env pt).signWithAlgorithm = env.signWithAlgorithm := rfl
      simp [signLoop, hm, runSign_touch, hg, hsw]
    · simp only [signLoop, hm, ne_eq, not_false_eq_true, if_true]
      exact ih w

/-- C9. The result of `SignWithFlags` does not depend on the touch dialog: under
any other `promptTouch` the returned signature or error, the agent's fields,
the external state and the log of calls are the same, so a signature the device
produced is returned whether or not the touch dialog failed. Whenever the
device signer is called, it is called once, and the start of the touch-prompt
task (followed by the sleep) comes immediately before that call. -/
theorem SignWithFlags_touch_independent (env : Env σ) (a : Agent) (w : σ) (key : PublicKey)
    (data : Bytes) (flags : Nat) (pt : Nat → String → Option String) :
    (SignWithFlags (withPromptTouch env pt) a w key data flags).val =
        (SignWithFlags env a w key data flags).val ∧
    (SignWithFlags (withPromptTouch env pt) a w key data flags).agent =
        (SignWithFlags env a w key data flags).agent ∧
    (SignWithFlags (withPromptTouch env pt) a w key data flags).world =
        (SignWithFlags env a w key data flags).world ∧
    (SignWithFlags (withPromptTouch env pt) a w key data flags).log =
        (SignWithFlags env a w key data flags).log ∧
    (∀ sig, (SignWithFlags env a w key data flags).val = Res.ok sig →
      (SignWithFlags (withPromptTouch env pt) a w key data flags).val = Res.ok sig) ∧
    ((SignWithFlags env a w key data flags).log.countP Event.isSign = 0 ∨
      ∃ pre post path priv,
        (SignWithFlags env a w key data flags).log =
          pre ++ [Event.goTouch (ensureYK env a w).agent.serial path, Event.sleep 100,
            Event.signWithAlgorithm priv data (sigAlg key.type flags)] ++ post ∧
        pre.countP Event.isSign = 0 ∧ post.countP Event.isSign = 0 ∧
        (SignWithFlags env a w key data flags).task =
          touchTask env (ensureYK env a w).agent.serial path) := by
  have hmain : (SignWithFlags (withPromptTouch env pt) a w key data flags).val =
        (SignWithFlags env a w key data flags).val ∧
      (SignWithFlags (withPromptTouch env pt) a w key data flags).agent =
        (SignWithFlags env a w key data flags).agent ∧
      (SignWithFlags (withPromptTouch env pt) a w key data flags).world =
        (SignWithFlags env a w key data flags).world ∧
      (SignWithFlags (withPromptTouch env pt) a w key data flags).log =
        (SignWithFlags env a w key data flags).log := by
    simp only [SignWithFlags, ensureYK_touch, signers_touch, maybeReleaseYK_touch]
    cases hv : (ensureYK env a w).val with
    | some err => simp
    | none =>
      cases hs : (signers env (ensureYK env a w).agent (ensureYK env a w).world).val with
      | error err => simp
      | ok ss =>
        obtain ⟨h1, h2, h3, h4⟩ := signLoop_touch env pt (ensureYK env a w).agent key data flags
          ss (signers env (ensureYK env a w).agent (ensureYK env a w).world).world
        simp only [h1, h2, h3, h4]
        simp
  obtain ⟨m1, m2, m3, m4⟩ := hmain
  refine ⟨m1, m2, m3, m4, ?_, ?_⟩
  · intro sig hsig
    rw [m1, hsig]
  · rcases SignWithFlags_shape env a w key data flags with ⟨_, hl, _⟩ |
      ⟨ss, s, pre, post, path, w1, _, _, _, _, hlog, hpre, hpost, htask, _⟩
    · left
      exact (session_counts _ hl).2.2
    · right
      refine ⟨pre ++ [Event.iconPath], post, path, s.priv, ?_, ?_, (callback_counts _ hpost).2,
        htask⟩
      · rw [hlog]
        simp
      · simp [List.countP_append, (session_counts _ hpre).2.2, Event.isSign]

/-- C9 at the example device with a touch dialog that fails: the detached task
falls back to the notification and the signature is returned all the same. -/
theorem SignWithFlags_touch_independent_witness :
    (SignWithFlags touchFailsEnv ⟨none, 0⟩ 0 demoKey [1, 2, 3] 0).val =
      Res.ok ⟨"ssh-rsa", [1, 2, 3]⟩ ∧
    (SignWithFlags touchFailsEnv ⟨none, 0⟩ 0 demoKey [1, 2, 3] 0).task =
      [Event.promptTouch 1234567 "/tmp/skoob-icon-1.png",
        Event.showNotification "Waiting for Key touch..."] ∧
    (SignWithFlags demoEnv ⟨none, 0⟩ 0 demoKey [1, 2, 3] 0).log =
      [Event.cards true, Event.openCard "Internal Reader" false,
        Event.openCard "Yubico YubiKey" true, Event.serial 7 1234567,
        Event.certificate 7 SlotAuthentication true, Event.privateKey 7 SlotAuthentication true,
        Event.iconPath, Event.goTouch 1234567 "/tmp/skoob-icon-1.png", Event.sleep 100,
        Event.signWithAlgorithm 1 [1, 2, 3] "ssh-rsa",
        Event.retries 7, Event.iconPath, Event.getPIN 1234567 3 "/tmp/skoob-icon-1.png"] :=
  ⟨(SignWithFlags_touch_independent demoEnv ⟨none, 0⟩ 0 demoKey [1, 2, 3] 0
      (fun _ _ => some "exit status 1")).2.2.2.2.1 ⟨"ssh-rsa", [1, 2, 3]⟩ (by decide),
    by decide, by decide⟩

end YubikeyAgent
